import Mathlib

/-!
Verification of the Fintrid fee-reconciliation and tolerance-evaluation engine.

The definitions below are a shallow embedding of the TypeScript sources
`frontend/src/types/trid.ts` (data model), `frontend/src/lib/trid-rules.ts`
(the three tolerance evaluators), `frontend/src/lib/formatters.ts`
(payer-split extraction, fee-label normalization, raw-document transformers),
`frontend/src/lib/ai-trid-transformer.ts` (the pre-matched AI input path) and
the `totalDifference` aggregate of the data page.

Currency amounts are modelled as rationals; the JavaScript
`Number(value.toFixed(2))` currency rounding is modelled as rounding to two
decimal places half-away-from-zero (`round2`), which is the behaviour the
code relies on for currency-scale values.  Optional fields become `Option`,
JavaScript truthiness tests on optional numbers become
`Option` matches requiring a nonzero value, and the insertion-ordered
JavaScript `Map` becomes an association list with in-place update on an
existing key and append on a new key.
-/

/-- Round a rational to the nearest integer, halves away from zero
(the rounding used by JavaScript `toFixed`). -/
def roundHalfAway (x : ℚ) : ℤ :=
  if 0 ≤ x then ⌊x + 1 / 2⌋ else -⌊-x + 1 / 2⌋

/-- Round to 2 decimal places, half away from zero. -/
def round2 (q : ℚ) : ℚ :=
  (roundHalfAway (100 * q) : ℚ) / 100

/-- Source `trid-rules.ts`: `const currency = (value) => Number(value.toFixed(2))`. -/
def currency (value : ℚ) : ℚ :=
  round2 value

/-- A rational is a whole number of cents. -/
def isCents (q : ℚ) : Prop :=
  ∃ m : ℤ, q = (m : ℚ) / 100

theorem roundHalfAway_intCast (m : ℤ) : roundHalfAway (m : ℚ) = m := by
  unfold roundHalfAway
  split
  · rw [Int.floor_eq_iff]
    constructor <;> linarith
  · have h2 : ⌊-(m : ℚ) + 1 / 2⌋ = -m := by
      rw [Int.floor_eq_iff]
      push_cast
      constructor <;> linarith
    rw [h2]
    omega

theorem round2_isCents (q : ℚ) : isCents (round2 q) :=
  ⟨roundHalfAway (100 * q), rfl⟩

theorem round2_eq_self_of_isCents {q : ℚ} (h : isCents q) : round2 q = q := by
  obtain ⟨m, rfl⟩ := h
  unfold round2
  have h100 : (100 : ℚ) * ((m : ℚ) / 100) = (m : ℚ) := by
    field_simp
  rw [h100, roundHalfAway_intCast]

theorem isCents_zero : isCents 0 :=
  ⟨0, by norm_num⟩

theorem isCents_add {a b : ℚ} (ha : isCents a) (hb : isCents b) : isCents (a + b) := by
  obtain ⟨m, rfl⟩ := ha
  obtain ⟨k, rfl⟩ := hb
  exact ⟨m + k, by push_cast; ring⟩

theorem isCents_neg {a : ℚ} (ha : isCents a) : isCents (-a) := by
  obtain ⟨m, rfl⟩ := ha
  exact ⟨-m, by push_cast; ring⟩

theorem isCents_sub {a b : ℚ} (ha : isCents a) (hb : isCents b) : isCents (a - b) := by
  rw [sub_eq_add_neg]
  exact isCents_add ha (isCents_neg hb)

theorem isCents_max_zero {a : ℚ} (ha : isCents a) : isCents (max 0 a) := by
  rcases le_total a 0 with h | h
  · rw [max_eq_left h]
    exact isCents_zero
  · rw [max_eq_right h]
    exact ha

theorem isCents_sum {l : List ℚ} (h : ∀ x ∈ l, isCents x) : isCents l.sum := by
  induction l with
  | nil => simpa using isCents_zero
  | cons a t ih =>
      rw [List.sum_cons]
      exact isCents_add (h a (by simp)) (ih fun x hx => h x (by simp [hx]))

theorem round2_nonneg {q : ℚ} (h : 0 ≤ q) : 0 ≤ round2 q := by
  unfold round2 roundHalfAway
  have h100 : (0 : ℚ) ≤ 100 * q := by positivity
  rw [if_pos h100]
  have hfl : (0 : ℤ) ≤ ⌊100 * q + 1 / 2⌋ := by
    rw [Int.le_floor]
    push_cast
    linarith
  positivity

theorem isCents_pos_ge {q : ℚ} (hc : isCents q) (h : 0 < q) : 1 / 100 ≤ q := by
  obtain ⟨m, rfl⟩ := hc
  have hm : (0 : ℚ) < (m : ℚ) := by
    by_contra hle
    push_neg at hle
    have : (m : ℚ) / 100 ≤ 0 := by
      apply div_nonpos_of_nonpos_of_nonneg hle
      norm_num
    linarith
  have hm1 : (1 : ℤ) ≤ m := by exact_mod_cast hm
  have h1m : (1 : ℚ) ≤ (m : ℚ) := by exact_mod_cast hm1
  gcongr

/-! ## Data model (source `frontend/src/types/trid.ts` and the display-row
shapes of `frontend/src/lib/trid-rules.ts`) -/

/-- Per-row evaluation status. -/
inductive RowStatus
  | PASS
  | FAIL
  | REVIEW
deriving DecidableEq, Repr

/-- Flag kinds raised by the evaluators.  The TypeScript union type lists the
first eight; the code additionally builds `CURED_BY_LENDER` and
`PER_DIEM_INTEREST_DEVIATION` flags, so they are part of the de-facto model. -/
inductive ToleranceFlag
  | ZERO_LINE_OVERAGE
  | SECTION_PLACEMENT_MISMATCH
  | PROVIDER_OFF_LIST
  | LOW_CONFIDENCE
  | OFF_LIST_EXCLUDED
  | PER_DIEM_OUTLIER
  | ESCROW_CUSHION_EXCEEDED
  | OPTIONALITY_MISMATCH
  | CURED_BY_LENDER
  | PER_DIEM_INTEREST_DEVIATION
deriving DecidableEq, Repr

/-- Flag severity. -/
inductive Severity
  | error
  | warning
deriving DecidableEq, Repr

/-- A flag attached to a row by an evaluator. -/
structure FlagDetail where
  code : ToleranceFlag
  label : String
  severity : Severity
  details : Option String
deriving DecidableEq, Repr

/-- Derived payer split of a line item. -/
structure PayerSplit where
  borrower : ℚ
  seller : Option ℚ
  other : Option ℚ
deriving DecidableEq, Repr

/-- A fee in one of the zero-tolerance buckets. -/
structure ZeroToleranceFee where
  id : String
  fee : String
  permittedToShop : Option Bool
  le : PayerSplit
  cd : PayerSplit
  changeReason : String
deriving DecidableEq, Repr

/-- A fee in the 10%-aggregate bucket.  `providerType` is nominally
"C" (shoppable) or "E" (recording), but the AI path casts an arbitrary
section string into it, so it is modelled as a string. -/
structure TenPercentFee where
  id : String
  fee : String
  provider : String
  providerType : String
  whitelistConfidence : ℚ
  onWhitelist : Bool
  matchConfidence : ℚ
  le : PayerSplit
  cd : PayerSplit
  changeReason : String
  isRecording : Option Bool
deriving DecidableEq, Repr

/-- A fee in one of the unlimited buckets.  `bucket` is nominally "F", "G"
or "H", but the AI path casts an arbitrary section string into it, so it is
modelled as a string.  `loanAmount` and `interestRate`
are populated by the transformers and read by `evaluateUnlimited`, although
the TypeScript interface omits them. -/
structure UnlimitedFee where
  id : String
  bucket : String
  fee : String
  le : PayerSplit
  cd : PayerSplit
  changeReason : String
  perDiemDays : Option ℚ
  escrowMonths : Option ℚ
  isOptional : Option Bool
  lenderRequired : Option Bool
  loanAmount : Option ℚ
  interestRate : Option ℚ
deriving DecidableEq, Repr

/-- Output row of the zero-tolerance evaluator. -/
structure ZeroToleranceDisplayRow extends ZeroToleranceFee where
  delta : ℚ
  status : RowStatus
  flags : List FlagDetail
  cureAmount : ℚ
deriving DecidableEq, Repr

/-- Result of the zero-tolerance evaluator. -/
structure ZeroToleranceResult where
  rows : List ZeroToleranceDisplayRow
  subtotalLE : ℚ
  subtotalCD : ℚ
  passCount : ℕ
  failCount : ℕ
  reviewCount : ℕ
  cureAmount : ℚ
deriving DecidableEq, Repr

/-- Output row of the ten-percent evaluator. -/
structure TenPercentDisplayRow extends TenPercentFee where
  delta : ℚ
  status : RowStatus
  flags : List FlagDetail
  effectiveOnWhitelist : Bool
  inTenGroup : Bool
deriving DecidableEq, Repr

/-- Aggregate status of the ten-percent test. -/
inductive TenStatus
  | PASS
  | OVER
deriving DecidableEq, Repr

/-- Result of the ten-percent evaluator. -/
structure TenPercentResult where
  rows : List TenPercentDisplayRow
  leBase : ℚ
  cdTotal : ℚ
  allowedMax : ℚ
  overage : ℚ
  status : TenStatus
deriving DecidableEq, Repr

/-- Output row of the unlimited evaluator. -/
structure UnlimitedDisplayRow extends UnlimitedFee where
  delta : ℚ
  status : RowStatus
  flags : List FlagDetail
deriving DecidableEq, Repr

/-- Caller-supplied rule options; absent fields fall back to `DEFAULTS`. -/
structure RuleOptions where
  zeroThreshold : Option ℚ
  reviewConfidenceFloor : Option ℚ
  reviewConfidenceCeil : Option ℚ
  lenderCredits : Option ℚ
deriving DecidableEq, Repr

/-- The options object with every field defaulted (a caller passing no
options object). -/
def noOptions : RuleOptions :=
  ⟨none, none, none, none⟩

/-- Fully resolved configuration. -/
structure ResolvedRuleOptions where
  zeroThreshold : ℚ
  reviewConfidenceFloor : ℚ
  reviewConfidenceCeil : ℚ
  lenderCredits : ℚ
deriving DecidableEq, Repr

/-- Source defaults: zeroThreshold 1, reviewConfidenceFloor 0.8,
reviewConfidenceCeil 0.93, lenderCredits 0. -/
def DEFAULTS : ResolvedRuleOptions :=
  ⟨1, 4 / 5, 93 / 100, 0⟩

/-- The TypeScript spread `{...DEFAULTS, ...options}`. -/
def resolveOptions (o : RuleOptions) : ResolvedRuleOptions :=
  ⟨o.zeroThreshold.getD DEFAULTS.zeroThreshold,
   o.reviewConfidenceFloor.getD DEFAULTS.reviewConfidenceFloor,
   o.reviewConfidenceCeil.getD DEFAULTS.reviewConfidenceCeil,
   o.lenderCredits.getD DEFAULTS.lenderCredits⟩

/-- Manual-override entry for a ten-percent row. -/
structure TenPercentOverride where
  includeInGroup : Option Bool
deriving DecidableEq, Repr

/-- Override map keyed by fee id. -/
def TenPercentOverrideMap : Type :=
  List (String × TenPercentOverride)

/-- Borrower delta of a fee: `currency(cd.borrower - le.borrower)`. -/
def borrowerDelta (le cd : PayerSplit) : ℚ :=
  currency (cd.borrower - le.borrower)

/-- Construct a flag (source `buildFlag`; the source defaults severity to
warning and details to absent, spelled out at call sites here). -/
def buildFlag (code : ToleranceFlag) (label : String) (severity : Severity)
    (details : Option String) : FlagDetail :=
  ⟨code, label, severity, details⟩

/-- JavaScript truthiness of an optional number: present and nonzero. -/
def optTruthy (o : Option ℚ) : Bool :=
  match o with
  | some v => v != 0
  | none => false

/-- The codes carried by a list of flags. -/
def flagCodes (l : List FlagDetail) : List ToleranceFlag :=
  l.map (fun f => f.code)

/-! ## Message formatting helpers

The evaluators interpolate currency figures into flag labels.  `fixed2`
mirrors `x.toFixed(2)`, `fixed1` mirrors `x.toFixed(1)`, `formatUSD` mirrors
the `Intl` US-currency formatter (dollar sign, thousands separators, two
decimals), and `jsRound` mirrors `Math.round` (half up). -/

/-- Two-digit decimal part from a number of hundredths. -/
def twoDigitFrac (a : ℕ) : String :=
  (if a % 100 < 10 then "0" else "") ++ toString (a % 100)

/-- JavaScript `x.toFixed(2)`. -/
def fixed2 (q : ℚ) : String :=
  let m := roundHalfAway (100 * q)
  (if m < 0 then "-" else "") ++ toString (m.natAbs / 100) ++ "." ++ twoDigitFrac m.natAbs

/-- JavaScript `x.toFixed(1)`. -/
def fixed1 (q : ℚ) : String :=
  let m := roundHalfAway (10 * q)
  (if m < 0 then "-" else "") ++ toString (m.natAbs / 10) ++ "." ++ toString (m.natAbs % 10)

/-- Insert a comma after every third character of a reversed digit list. -/
def commaGroup : List Char → List Char
  | a :: b :: c :: d :: rest => a :: b :: c :: ',' :: commaGroup (d :: rest)
  | l => l

/-- Thousands-grouped decimal rendering of a natural number. -/
def groupedNat (n : ℕ) : String :=
  String.mk (commaGroup (toString n).toList.reverse).reverse

/-- The `Intl.NumberFormat` en-US currency rendering used by `formatUSD`. -/
def formatUSD (amount : ℚ) : String :=
  let m := roundHalfAway (100 * amount)
  (if m < 0 then "-$" else "$") ++ groupedNat (m.natAbs / 100) ++ "." ++ twoDigitFrac m.natAbs

/-- JavaScript `Math.round`: nearest integer, halves toward positive. -/
def jsRound (x : ℚ) : ℤ :=
  ⌊x + 1 / 2⌋

/-! ## Zero-tolerance evaluator (source `evaluateZeroTolerance`) -/

/-- Zero-tolerance bucket tag. -/
inductive ZBucket
  | A
  | B
deriving DecidableEq, Repr

/-- The per-row scoring pass of `evaluateZeroTolerance` (the body of
`rows.map`). -/
def zeroRow (bucket : ZBucket) (config : ResolvedRuleOptions)
    (row : ZeroToleranceFee) : ZeroToleranceDisplayRow :=
  let delta := borrowerDelta row.le row.cd
  let status0 : RowStatus :=
    if config.zeroThreshold < delta then .FAIL else .PASS
  let flags0 : List FlagDetail :=
    if config.zeroThreshold < delta then
      [buildFlag .ZERO_LINE_OVERAGE
        ("Borrower owes $" ++ fixed2 (delta - config.zeroThreshold) ++ " over zero tolerance")
        .error none]
    else []
  let anomaly : Bool := bucket == ZBucket.B && row.permittedToShop.getD false
  let flags :=
    if anomaly then
      flags0 ++ [buildFlag .SECTION_PLACEMENT_MISMATCH
        "Fee marked permitted-to-shop but placed in zero bucket" .warning none]
    else flags0
  let status :=
    if anomaly then (if status0 = .PASS then .REVIEW else status0) else status0
  let cureAmount :=
    if status = .FAIL then currency (delta - config.zeroThreshold) else 0
  { toZeroToleranceFee := row, delta := delta, status := status,
    flags := flags, cureAmount := cureAmount }

/-- The `CURED_BY_LENDER` flag pushed by the zero-tolerance evaluator. -/
def curedZeroFlag (lenderCredits : ℚ) : FlagDetail :=
  buildFlag .CURED_BY_LENDER
    ("Overage offset by lender credit ($" ++ fixed2 lenderCredits ++ ")") .warning none

/-- The lender-credit annotation pass of `evaluateZeroTolerance` (the
`evaluated.forEach` block guarded by `lenderCredits > 0 && totalCureNeeded > 0`). -/
def zeroCurePass (lenderCredits totalCureNeeded : ℚ)
    (evaluated : List ZeroToleranceDisplayRow) : List ZeroToleranceDisplayRow :=
  if decide (0 < lenderCredits) && decide (0 < totalCureNeeded) then
    evaluated.map (fun r =>
      if decide (0 < r.cureAmount) && decide (totalCureNeeded ≤ lenderCredits) then
        { r with flags := r.flags ++ [curedZeroFlag lenderCredits] }
      else r)
  else evaluated

/-- Zero-tolerance evaluator over one bucket. -/
def evaluateZeroTolerance (rows : List ZeroToleranceFee) (bucket : ZBucket)
    (options : RuleOptions) : ZeroToleranceResult :=
  let config := resolveOptions options
  let lenderCredits := config.lenderCredits
  let evaluated := rows.map (zeroRow bucket config)
  let totalCureNeeded := currency ((evaluated.map (fun r => r.cureAmount)).sum)
  let evaluated2 := zeroCurePass lenderCredits totalCureNeeded evaluated
  { rows := evaluated2
    subtotalLE := currency ((evaluated2.map (fun r => r.le.borrower)).sum)
    subtotalCD := currency ((evaluated2.map (fun r => r.cd.borrower)).sum)
    passCount := evaluated2.countP (fun r => r.status == .PASS)
    failCount := evaluated2.countP (fun r => r.status == .FAIL)
    reviewCount := evaluated2.countP (fun r => r.status == .REVIEW)
    cureAmount := currency ((evaluated2.map (fun r => r.cureAmount)).sum) }

/-! ## Ten-percent evaluator (source `evaluateTenPercent`) -/

/-- The per-row pass of `evaluateTenPercent`. -/
def tenRow (overrides : TenPercentOverrideMap) (config : ResolvedRuleOptions)
    (row : TenPercentFee) : TenPercentDisplayRow :=
  let delta := borrowerDelta row.le row.cd
  let isRecording : Bool := row.providerType == "E" || row.isRecording.getD false
  let effectiveOnWhitelist : Bool :=
    match (List.lookup row.id overrides).bind (fun o => o.includeInGroup) with
    | some b => b
    | none => row.onWhitelist
  let isLowConfidence : Bool := decide (row.matchConfidence < config.reviewConfidenceFloor)
  let needsReview : Bool :=
    decide (config.reviewConfidenceFloor ≤ row.matchConfidence) &&
    decide (row.matchConfidence < config.reviewConfidenceCeil)
  let flags : List FlagDetail :=
    (if !effectiveOnWhitelist && !isRecording && !needsReview && !isLowConfidence then
      [buildFlag .PROVIDER_OFF_LIST "Provider chosen off-list; unlimited tolerance" .warning none]
    else []) ++
    (if needsReview then
      [buildFlag .LOW_CONFIDENCE
        ("Match confidence " ++ toString (jsRound (row.matchConfidence * 100)) ++ "% - Review")
        .warning none]
    else [])
  let inTenGroup : Bool := (effectiveOnWhitelist || isRecording) && !isLowConfidence
  let status : RowStatus :=
    if isLowConfidence || needsReview then .REVIEW
    else if !effectiveOnWhitelist && !isRecording then .REVIEW
    else .PASS
  { toTenPercentFee := row, delta := delta, status := status, flags := flags,
    effectiveOnWhitelist := effectiveOnWhitelist, inTenGroup := inTenGroup }

/-- The `CURED_BY_LENDER` flag pushed by the ten-percent evaluator. -/
def curedTenFlag (lenderCredits : ℚ) : FlagDetail :=
  buildFlag .CURED_BY_LENDER
    ("10% overage offset by lender credit ($" ++ fixed2 lenderCredits ++ ")") .warning none

/-- The lender-credit annotation pass of `evaluateTenPercent` (the
`evaluated.forEach` block guarded by `overage > 0 && lenderCredits >= overage`). -/
def tenCurePass (lenderCredits overage : ℚ)
    (evaluated : List TenPercentDisplayRow) : List TenPercentDisplayRow :=
  if decide (0 < overage) && decide (overage ≤ lenderCredits) then
    evaluated.map (fun r =>
      if r.inTenGroup && decide (0 < r.delta) then
        { r with flags := r.flags ++ [curedTenFlag lenderCredits] }
      else r)
  else evaluated

/-- Ten-percent aggregate evaluator. -/
def evaluateTenPercent (rows : List TenPercentFee) (overrides : TenPercentOverrideMap)
    (options : RuleOptions) : TenPercentResult :=
  let config := resolveOptions options
  let evaluated := rows.map (tenRow overrides config)
  let eligibleRows := evaluated.filter (fun r => r.inTenGroup)
  let leBase := currency ((eligibleRows.map (fun r => r.le.borrower)).sum)
  let cdTotal := currency ((eligibleRows.map (fun r => r.cd.borrower)).sum)
  let allowedMax := currency (leBase * (11 / 10))
  let overage := currency (max 0 (cdTotal - allowedMax))
  let status : TenStatus := if 0 < overage then .OVER else .PASS
  let lenderCredits := config.lenderCredits
  let evaluated2 := tenCurePass lenderCredits overage evaluated
  { rows := evaluated2, leBase := leBase, cdTotal := cdTotal,
    allowedMax := allowedMax, overage := overage, status := status }

/-! ## Unlimited evaluator (source `evaluateUnlimited`) -/

/-- The `PER_DIEM_INTEREST_DEVIATION` flag, carrying the expected and actual
figures in its label. -/
def perDiemDeviationFlag (expected actual : ℚ) : FlagDetail :=
  let deviation := |actual - expected|
  let pctText :=
    if expected = 0 then "Infinity" else fixed1 (deviation / expected * 100)
  buildFlag .PER_DIEM_INTEREST_DEVIATION
    ("Expected " ++ formatUSD expected ++ ", actual " ++ formatUSD actual ++
     " (" ++ pctText ++ "% deviation)") .warning none

/-- The per-row pass of `evaluateUnlimited`. -/
def unlimitedRow (row : UnlimitedFee) : UnlimitedDisplayRow :=
  let delta := borrowerDelta row.le row.cd
  let flags1 : List FlagDetail :=
    if row.bucket == "F" && optTruthy row.perDiemDays &&
        decide (15 < row.perDiemDays.getD 0) then
      [buildFlag .PER_DIEM_OUTLIER
        (toString (row.perDiemDays.getD 0) ++ " per-diem days recorded") .warning none]
    else []
  let expectedPerDiem :=
    currency (row.loanAmount.getD 0 * row.interestRate.getD 0 / 100 / 365 * row.perDiemDays.getD 0)
  let deviation := |row.cd.borrower - expectedPerDiem|
  let devGT10 : Bool :=
    if expectedPerDiem = 0 then decide (0 < deviation)
    else decide (10 < deviation / expectedPerDiem * 100)
  let flags2 : List FlagDetail :=
    if row.bucket == "F" && optTruthy row.perDiemDays && optTruthy row.loanAmount &&
        optTruthy row.interestRate && decide (0 < row.cd.borrower) && devGT10 then
      [perDiemDeviationFlag expectedPerDiem row.cd.borrower]
    else []
  let flags3 : List FlagDetail :=
    if row.bucket == "G" && optTruthy row.escrowMonths &&
        decide (2 < row.escrowMonths.getD 0) then
      [buildFlag .ESCROW_CUSHION_EXCEEDED
        (toString (row.escrowMonths.getD 0) ++ " months collected (max 2 permitted)") .warning none]
    else []
  let flags4 : List FlagDetail :=
    if row.bucket == "H" && row.lenderRequired.getD false && !(row.isOptional.getD false) then
      [buildFlag .OPTIONALITY_MISMATCH
        "Disclosed optional item appears lender-required" .warning none]
    else []
  let flags := flags1 ++ flags2 ++ flags3 ++ flags4
  let status : RowStatus := if 0 < flags.length then .REVIEW else .PASS
  { toUnlimitedFee := row, delta := delta, status := status, flags := flags }

/-- Unlimited evaluator: advisory flags only. -/
def evaluateUnlimited (rows : List UnlimitedFee) : List UnlimitedDisplayRow :=
  rows.map unlimitedRow

/-! ## Structured document records (subset of `types/backend.ts` read by the
transformers) -/

/-- Sub-label refinement of a line item (the closed TypeScript union). -/
inductive SubLabel
  | borrower_paid_at_closing
  | borrower_paid_before_closing
  | seller_paid_at_closing
  | seller_paid_before_closing
  | paid_by_others
deriving DecidableEq, Repr

/-- The literal string value of a sub-label. -/
def subLabelText (s : SubLabel) : String :=
  match s with
  | .borrower_paid_at_closing => "borrower_paid_at_closing"
  | .borrower_paid_before_closing => "borrower_paid_before_closing"
  | .seller_paid_at_closing => "seller_paid_at_closing"
  | .seller_paid_before_closing => "seller_paid_before_closing"
  | .paid_by_others => "paid_by_others"

/-- Does the needle occur as a prefix of the haystack? -/
def startsWithChars : List Char → List Char → Bool
  | [], _ => true
  | _ :: _, [] => false
  | a :: ns, b :: hs => a == b && startsWithChars ns hs

/-- Does the needle occur anywhere in the haystack? -/
def containsChars (hay needle : List Char) : Bool :=
  match hay with
  | [] => needle.isEmpty
  | _ :: rest => startsWithChars needle hay || containsChars rest needle

/-- JavaScript `String.prototype.includes`. -/
def strIncludes (hay needle : String) : Bool :=
  containsChars hay.toList needle.toList

/-- Payer of a line item. -/
inductive Payer
  | borrower
  | seller
  | other
deriving DecidableEq, Repr

/-- Timing of a line item. -/
inductive Timing
  | at_closing
  | before_closing
  | na
deriving DecidableEq, Repr

/-- A single disclosed cost entry. -/
structure LineItem where
  label : Option String
  amount : Option ℚ
  sub_label : Option SubLabel
  payer : Option Payer
  timing : Option Timing
deriving DecidableEq, Repr

/-- A disclosure section with its line items. -/
structure SectionWithItems where
  label : Option String
  total : Option ℚ
  items : Option (List LineItem)
deriving DecidableEq, Repr

/-- Loan-cost sections A/B/C. -/
structure LoanCosts where
  A : Option SectionWithItems
  B : Option SectionWithItems
  C : Option SectionWithItems
  D_total : Option ℚ
deriving DecidableEq, Repr

/-- Other-cost sections E/F/G/H. -/
structure OtherCosts where
  E : Option SectionWithItems
  F : Option SectionWithItems
  G : Option SectionWithItems
  H : Option SectionWithItems
  I_total : Option ℚ
  J_total : Option ℚ
  lender_credits : Option ℚ
deriving DecidableEq, Repr

/-- Closing-cost details (the `cash_to_close` block is never read by the
transformers and is omitted). -/
structure ClosingCostDetails where
  loan_costs : Option LoanCosts
  other_costs : Option OtherCosts
deriving DecidableEq, Repr

/-- Loan terms (only the two fields read by `transformUnlimited`). -/
structure LoanTerms where
  loan_amount : Option ℚ
  interest_rate_pct : Option ℚ
deriving DecidableEq, Repr

/-- A structured document record (only the fields read by the transformers;
the remaining metadata fields are never consulted by the engine). -/
structure LoanEstimateRecord where
  loan_terms : Option LoanTerms
  closing_cost_details : Option ClosingCostDetails
deriving DecidableEq, Repr

/-! ## Payer-split extractor (source `formatters.ts` / `trid-transformer.ts`,
`getBorrowerAmount`, `getSellerAmount`, `getOtherAmount`) -/

/-- Borrower-attributed amount of an optional line item.  The source checks
`payer === 'borrower'` and `sub_label?.includes('borrower')` and then falls
through to `return item.amount` unconditionally. -/
def getBorrowerAmount (item : Option LineItem) : ℚ :=
  match item with
  | none => 0
  | some it =>
    match it.amount with
    | none => 0
    | some amt =>
      if it.payer == some Payer.borrower then amt
      else if (it.sub_label.map (fun s => strIncludes (subLabelText s) "borrower")).getD false then amt
      else amt

/-- Seller-attributed amount: explicit tag match only, else 0. -/
def getSellerAmount (item : Option LineItem) : ℚ :=
  match item with
  | none => 0
  | some it =>
    match it.amount with
    | none => 0
    | some amt =>
      if it.payer == some Payer.seller ||
          (it.sub_label.map (fun s => strIncludes (subLabelText s) "seller")).getD false then amt
      else 0

/-- Other-party amount: explicit tag match only (the sub-label test is for
the substring "others"), else 0. -/
def getOtherAmount (item : Option LineItem) : ℚ :=
  match item with
  | none => 0
  | some it =>
    match it.amount with
    | none => 0
    | some amt =>
      if it.payer == some Payer.other ||
          (it.sub_label.map (fun s => strIncludes (subLabelText s) "others")).getD false then amt
      else 0

/-! ## Fee-label normalizer (source `normalizeFee`)

The two regex replacements are modelled directly on character lists:
`replace(/^[\d]+[\s\.\-]+/, '')` strips one leading digit-run followed by a
nonempty run of whitespace, dots and hyphens, and `replace(/\s+to\s+.+$/i, '')`
removes everything from the leftmost position where whitespace is followed by
"to", more whitespace, and at least one further character extending to the
end of the string.  JavaScript's `\s` is modelled as `Char.isWhitespace`, and
the dot metacharacter as any character other than a line terminator. -/

/-- A character the regex dot does not match. -/
def isLineTerm (c : Char) : Bool :=
  c == '\n' || c == '\r'

/-- Strip the leading index prefix `^[\d]+[\s\.\-]+` (one replacement). -/
def stripIndexStart (cs : List Char) : List Char :=
  let ds := cs.takeWhile Char.isDigit
  let rest := cs.drop ds.length
  let ps := rest.takeWhile (fun c => c.isWhitespace || c == '.' || c == '-')
  if 0 < ds.length && 0 < ps.length then rest.drop ps.length else cs

/-- Does `\s+.+$` match this entire suffix (at least one whitespace, then at
least one character, all of the remainder free of line terminators)? -/
def toTailOk : List Char → Bool
  | [] => false
  | c :: rest =>
    c.isWhitespace &&
      ((rest ≠ [] && rest.all (fun d => !isLineTerm d)) || toTailOk rest)

/-- Does `to\s+.+$` (case-insensitive) match this entire suffix? -/
def isToThenTail (cs : List Char) : Bool :=
  match cs with
  | a :: b :: rest => a.toLower == 't' && b.toLower == 'o' && toTailOk rest
  | _ => false

/-- Does `\s+to\s+.+$` match this entire suffix? -/
def matchToAt : List Char → Bool
  | [] => false
  | c :: rest => c.isWhitespace && (isToThenTail rest || matchToAt rest)

/-- Remove the leftmost match of `\s+to\s+.+$` (which always extends to the
end of the string). -/
def stripToClause : List Char → List Char
  | [] => []
  | c :: rest => if matchToAt (c :: rest) then [] else c :: stripToClause rest

/-- Trim leading and trailing whitespace. -/
def trimChars (cs : List Char) : List Char :=
  ((cs.dropWhile Char.isWhitespace).reverse.dropWhile Char.isWhitespace).reverse

/-- Collapse each whitespace run to a single space (`replace(/\s+/g, ' ')`);
the flag records whether the previous character was part of a run. -/
def collapseWsAux : Bool → List Char → List Char
  | _, [] => []
  | prevWs, c :: rest =>
    if c.isWhitespace then
      (if prevWs then collapseWsAux true rest else ' ' :: collapseWsAux true rest)
    else c :: collapseWsAux false rest

/-- Canonicalize a fee label into a matching key (source `normalizeFee`). -/
def normalizeFee (label : Option String) : String :=
  match label with
  | none => ""
  | some l =>
    if l == "" then ""
    else
      let cs1 := stripIndexStart l.toList
      let cs2 := stripToClause cs1
      let cs3 := (trimChars cs2).map Char.toLower
      String.mk (collapseWsAux false cs3)

/-! ## Cross-document item merger (the `itemMap` construction of
`transformSectionA` / `transformSectionB` and friends)

A JavaScript `Map` preserves insertion order, `set` on an existing key
updates the value in place, and `set` on a new key appends; it is modelled
as an association list. -/

/-- JavaScript `Map.prototype.set` on an insertion-ordered association
list. -/
def mapSet {β : Type} (m : List (String × β)) (k : String) (v : β) :
    List (String × β) :=
  if (List.lookup k m).isSome then
    m.map (fun p => if p.1 == k then (k, v) else p)
  else m ++ [(k, v)]

/-- A merged entry carrying an optional LE-side and CD-side item. -/
structure MergedEntry where
  le : Option LineItem
  cd : Option LineItem
  displayLabel : String
deriving DecidableEq, Repr

/-- The LE pass of the zero-tolerance merger: a labeled item is written
unconditionally (`itemMap.set(normalized, { le: item, displayLabel })`);
an unlabeled item is skipped. -/
def insertLE (m : List (String × MergedEntry)) (item : LineItem) :
    List (String × MergedEntry) :=
  match item.label with
  | none => m
  | some l =>
    if l == "" then m
    else mapSet m (normalizeFee (some l)) ⟨some item, none, l⟩

/-- The CD pass of the merger: a labeled item joins an existing entry with
the same normalized key or seeds a new CD-only entry. -/
def insertCD (m : List (String × MergedEntry)) (item : LineItem) :
    List (String × MergedEntry) :=
  match item.label with
  | none => m
  | some l =>
    if l == "" then m
    else
      let k := normalizeFee (some l)
      match List.lookup k m with
      | some e => mapSet m k ⟨e.le, some item, e.displayLabel⟩
      | none => mapSet m k ⟨none, some item, l⟩

/-- The full merge for one zero-tolerance section: all LE items first, then
all CD items. -/
def buildItemMap (leItems cdItems : List LineItem) : List (String × MergedEntry) :=
  cdItems.foldl insertCD (leItems.foldl insertLE [])

/-- JavaScript `a || b` on an optional string against a fallback (an empty
string is falsy). -/
def orElseStr (a : Option String) (b : String) : String :=
  match a with
  | some s => if s == "" then b else s
  | none => b

/-- JavaScript `value || undefined`: a zero amount becomes absent. -/
def optOfNonzero (q : ℚ) : Option ℚ :=
  if q == 0 then none else some q

/-- The payer split built for one side of a merged entry. -/
def splitOf (it : Option LineItem) : PayerSplit :=
  ⟨getBorrowerAmount it, optOfNonzero (getSellerAmount it), optOfNonzero (getOtherAmount it)⟩

/-- Section item accessors (`leData?.closing_cost_details?.loan_costs?.A?.items || []`
and the analogous chains). -/
def itemsOfSection (sec : Option SectionWithItems) : List LineItem :=
  (sec.bind (fun s => s.items)).getD []

/-- Items of loan-cost section A of an optional record. -/
def itemsA (r : Option LoanEstimateRecord) : List LineItem :=
  itemsOfSection (((r.bind (fun x => x.closing_cost_details)).bind (fun c => c.loan_costs)).bind (fun l => l.A))

/-- Items of loan-cost section B. -/
def itemsB (r : Option LoanEstimateRecord) : List LineItem :=
  itemsOfSection (((r.bind (fun x => x.closing_cost_details)).bind (fun c => c.loan_costs)).bind (fun l => l.B))

/-- Items of loan-cost section C. -/
def itemsC (r : Option LoanEstimateRecord) : List LineItem :=
  itemsOfSection (((r.bind (fun x => x.closing_cost_details)).bind (fun c => c.loan_costs)).bind (fun l => l.C))

/-- Items of other-cost section E. -/
def itemsE (r : Option LoanEstimateRecord) : List LineItem :=
  itemsOfSection (((r.bind (fun x => x.closing_cost_details)).bind (fun c => c.other_costs)).bind (fun o => o.E))

/-- Items of other-cost section F. -/
def itemsF (r : Option LoanEstimateRecord) : List LineItem :=
  itemsOfSection (((r.bind (fun x => x.closing_cost_details)).bind (fun c => c.other_costs)).bind (fun o => o.F))

/-- Items of other-cost section G. -/
def itemsG (r : Option LoanEstimateRecord) : List LineItem :=
  itemsOfSection (((r.bind (fun x => x.closing_cost_details)).bind (fun c => c.other_costs)).bind (fun o => o.G))

/-- Items of other-cost section H. -/
def itemsH (r : Option LoanEstimateRecord) : List LineItem :=
  itemsOfSection (((r.bind (fun x => x.closing_cost_details)).bind (fun c => c.other_costs)).bind (fun o => o.H))

/-- Build the zero-tolerance rows from a merged map, numbering ids from the
given index with the given prefix string ("a-" or "b-"). -/
def zeroRowsFromMap (pfx : String) : ℕ → List (String × MergedEntry) → List ZeroToleranceFee
  | _, [] => []
  | i, (k, e) :: rest =>
    let displayLabel := orElseStr (e.le.bind (fun it => it.label))
      (orElseStr (e.cd.bind (fun it => it.label)) k)
    ⟨pfx ++ toString i, displayLabel, some false, splitOf e.le, splitOf e.cd, ""⟩ ::
      zeroRowsFromMap pfx (i + 1) rest

/-- Source `transformSectionA`. -/
def transformSectionA (leData cdData : Option LoanEstimateRecord) : List ZeroToleranceFee :=
  zeroRowsFromMap "a-" 0 (buildItemMap (itemsA leData) (itemsA cdData))

/-- Source `transformSectionB` (identical body over section B with id
prefix "b-"). -/
def transformSectionB (leData cdData : Option LoanEstimateRecord) : List ZeroToleranceFee :=
  zeroRowsFromMap "b-" 0 (buildItemMap (itemsB leData) (itemsB cdData))

/-! ## Ten-percent transformer (source `transformTenPercent`)

The source draws `Math.random()` to decide `onWhitelist` for non-recording
rows; randomness is modelled by passing an explicit stream of draws
`rand : ℕ → ℚ` consumed in row order, exactly where the source calls
`Math.random()`. -/

/-- Case-insensitive literal match returning the rest of the input. -/
def matchCI : List Char → List Char → Option (List Char)
  | [], cs => some cs
  | _ :: _, [] => none
  | a :: ns, b :: hs => if a.toLower == b.toLower then matchCI ns hs else none

/-- Match `\s+` (at least one whitespace character, maximal run). -/
def matchWs1 (cs : List Char) : Option (List Char) :=
  let ws := cs.takeWhile Char.isWhitespace
  if 0 < ws.length then some (cs.drop ws.length) else none

/-- Consume an optional trailing "s" (the regex `s?`). -/
def optS (cs : List Char) : List Char :=
  match cs with
  | c :: r => if c.toLower == 's' then r else cs
  | [] => cs

/-- Match `\s+and\s+other\s+taxes?` case-insensitively. -/
def matchAndOtherTaxes (cs : List Char) : Option (List Char) :=
  (matchWs1 cs).bind fun r1 =>
    (matchCI "and".toList r1).bind fun r2 =>
      (matchWs1 r2).bind fun r3 =>
        (matchCI "other".toList r3).bind fun r4 =>
          (matchWs1 r4).bind fun r5 =>
            (matchCI "taxe".toList r5).map fun r6 => optS r6

/-- Match `\s+and\s+taxes?` case-insensitively. -/
def matchAndTaxes (cs : List Char) : Option (List Char) :=
  (matchWs1 cs).bind fun r1 =>
    (matchCI "and".toList r1).bind fun r2 =>
      (matchWs1 r2).bind fun r3 =>
        (matchCI "taxe".toList r3).map fun r4 => optS r4

/-- Match the literal `recording fees?` case-insensitively. -/
def matchRecordingFees (cs : List Char) : Option (List Char) :=
  (matchCI "recording fee".toList cs).map fun r => optS r

/-- Global regex replacement: scan left to right, replacing each leftmost
match and continuing after it.  The fuel argument (initialized to the input
length) makes the recursion structural; every pattern used consumes at least
one character, so the fuel never runs out. -/
def globalReplaceFuel (try1 : List Char → Option (List Char)) (repl : List Char) :
    ℕ → List Char → List Char
  | 0, cs => cs
  | _ + 1, [] => []
  | fuel + 1, c :: rest =>
    match try1 (c :: rest) with
    | some remaining => repl ++ globalReplaceFuel try1 repl fuel remaining
    | none => c :: globalReplaceFuel try1 repl fuel rest

/-- Global regex replacement on strings. -/
def globalReplaceStr (try1 : List Char → Option (List Char)) (repl s : String) : String :=
  String.mk (globalReplaceFuel try1 repl.toList s.toList.length s.toList)

/-- The cosmetic clean-up applied to a recording-fee display label. -/
def adjustRecordingLabel (s : String) : String :=
  let s1 := globalReplaceStr matchAndOtherTaxes "" s
  let s2 := globalReplaceStr matchAndTaxes "" s1
  let s3 := globalReplaceStr matchRecordingFees "Recording Fees" s2
  String.mk (trimChars s3.toList)

/-- A merged entry of the ten-percent map, carrying the section type. -/
structure TenEntry where
  le : Option LineItem
  cd : Option LineItem
  type : String
  displayLabel : String
deriving DecidableEq, Repr

/-- LE pass over section C items (unconditional write). -/
def insertTenLeC (m : List (String × TenEntry)) (item : LineItem) : List (String × TenEntry) :=
  match item.label with
  | none => m
  | some l =>
    if l == "" then m
    else mapSet m (normalizeFee (some l)) ⟨some item, none, "C", l⟩

/-- LE pass over section E items (merge into an existing entry, switching
its type to "E"). -/
def insertTenLeE (m : List (String × TenEntry)) (item : LineItem) : List (String × TenEntry) :=
  match item.label with
  | none => m
  | some l =>
    if l == "" then m
    else
      let k := normalizeFee (some l)
      match List.lookup k m with
      | some e => mapSet m k ⟨some item, e.cd, "E", e.displayLabel⟩
      | none => mapSet m k ⟨some item, none, "E", l⟩

/-- CD pass over section C items (type preserved on merge). -/
def insertTenCdC (m : List (String × TenEntry)) (item : LineItem) : List (String × TenEntry) :=
  match item.label with
  | none => m
  | some l =>
    if l == "" then m
    else
      let k := normalizeFee (some l)
      match List.lookup k m with
      | some e => mapSet m k ⟨e.le, some item, e.type, e.displayLabel⟩
      | none => mapSet m k ⟨none, some item, "C", l⟩

/-- CD pass over section E items (type switched to "E" on merge). -/
def insertTenCdE (m : List (String × TenEntry)) (item : LineItem) : List (String × TenEntry) :=
  match item.label with
  | none => m
  | some l =>
    if l == "" then m
    else
      let k := normalizeFee (some l)
      match List.lookup k m with
      | some e => mapSet m k ⟨e.le, some item, "E", e.displayLabel⟩
      | none => mapSet m k ⟨none, some item, "E", l⟩

/-- Build ten-percent fee rows from the merged map.  `i` numbers ids,
`draw` indexes the random stream: a draw is consumed per non-recording row
(`onWhitelist: isRecording ? true : Math.random() > 0.3`). -/
def tenRowsFromMap (rand : ℕ → ℚ) : ℕ → ℕ → List (String × TenEntry) → List TenPercentFee
  | _, _, [] => []
  | i, draw, (k, e) :: rest =>
    let isRecording := e.type == "E"
    let label0 := orElseStr (e.le.bind (fun it => it.label))
      (orElseStr (e.cd.bind (fun it => it.label)) k)
    let displayLabel :=
      if isRecording && strIncludes (String.mk (label0.toList.map Char.toLower)) "recording" then
        adjustRecordingLabel label0
      else label0
    (⟨"ten-" ++ toString i, displayLabel, "Unknown Provider", e.type,
      (if isRecording then 1 else 17 / 20),
      (if isRecording then true else decide (3 / 10 < rand draw)),
      19 / 20, splitOf e.le, splitOf e.cd, "", some isRecording⟩ : TenPercentFee) ::
      tenRowsFromMap rand (i + 1) (if isRecording then draw else draw + 1) rest

/-- Source `transformTenPercent` with the random stream made explicit. -/
def transformTenPercent (leData cdData : Option LoanEstimateRecord) (rand : ℕ → ℚ) :
    List TenPercentFee :=
  let m1 := (itemsC leData).foldl insertTenLeC []
  let m2 := (itemsE leData).foldl insertTenLeE m1
  let m3 := (itemsC cdData).foldl insertTenCdC m2
  let m4 := (itemsE cdData).foldl insertTenCdE m3
  tenRowsFromMap rand 0 0 m4

/-! ## Unlimited transformer (source `transformUnlimited`) -/

/-- Decimal digits to a natural number (JavaScript `parseInt(, 10)`). -/
def digitsToNat (ds : List Char) : ℕ :=
  ds.foldl (fun n c => 10 * n + (c.toNat - '0'.toNat)) 0

/-- Does the literal match case-insensitively at the head? -/
def startsWithCI (lit : String) (cs : List Char) : Bool :=
  (matchCI lit.toList cs).isSome

/-- The keyword alternative `(?:day|per.?diem)` of the per-diem regex. -/
def perDiemKw (cs : List Char) : Bool :=
  startsWithCI "day" cs ||
  (match matchCI "per".toList cs with
   | some rest =>
     startsWithCI "diem" rest ||
       (match rest with
        | c :: r2 => !isLineTerm c && startsWithCI "diem" r2
        | [] => false)
   | none => false)

/-- The keyword of the escrow-months regex. -/
def monthKw (cs : List Char) : Bool :=
  startsWithCI "month" cs

/-- Leftmost match of `(\d+)\s*<keyword>`: scan every position, take the
maximal digit run, skip whitespace, and test the keyword. -/
def extractNum (kw : List Char → Bool) : List Char → Option ℕ
  | [] => none
  | c :: rest =>
    if c.isDigit then
      let run := (c :: rest).takeWhile Char.isDigit
      let after := ((c :: rest).drop run.length).dropWhile Char.isWhitespace
      if kw after then some (digitsToNat run) else extractNum kw rest
    else extractNum kw rest

/-- Source `extractPerDiem`: first number followed by "day" or "per diem". -/
def extractPerDiem (feeName : String) : Option ℕ :=
  extractNum perDiemKw feeName.toList

/-- Source `extractEscrowMonths`: first number followed by "month". -/
def extractEscrowMonths (feeName : String) : Option ℕ :=
  extractNum monthKw feeName.toList

/-- JavaScript `a || b` over an optional number (zero is falsy). -/
def truthyOr (a : Option ℚ) (b : ℚ) : ℚ :=
  match a with
  | some v => if v == 0 then b else v
  | none => b

/-- A merged entry of the unlimited map, carrying the bucket tag.  The
source additionally tags each stored item with a bucket field that is never
read again; that dead tag is omitted. -/
structure UnlEntry where
  le : Option LineItem
  cd : Option LineItem
  bucket : String
  displayLabel : String
deriving DecidableEq, Repr

/-- First LE pass (section F): unconditional write. -/
def insertUnlLeFirst (bucket : String) (m : List (String × UnlEntry)) (item : LineItem) :
    List (String × UnlEntry) :=
  match item.label with
  | none => m
  | some l =>
    if l == "" then m
    else mapSet m (normalizeFee (some l)) ⟨some item, none, bucket, l⟩

/-- Later LE passes (sections G and H): merge replaces the LE side and the
bucket. -/
def insertUnlLe (bucket : String) (m : List (String × UnlEntry)) (item : LineItem) :
    List (String × UnlEntry) :=
  match item.label with
  | none => m
  | some l =>
    if l == "" then m
    else
      let k := normalizeFee (some l)
      match List.lookup k m with
      | some e => mapSet m k ⟨some item, e.cd, bucket, e.displayLabel⟩
      | none => mapSet m k ⟨some item, none, bucket, l⟩

/-- CD passes: merge fills the CD side, keeping the entry bucket. -/
def insertUnlCd (bucket : String) (m : List (String × UnlEntry)) (item : LineItem) :
    List (String × UnlEntry) :=
  match item.label with
  | none => m
  | some l =>
    if l == "" then m
    else
      let k := normalizeFee (some l)
      match List.lookup k m with
      | some e => mapSet m k ⟨e.le, some item, e.bucket, e.displayLabel⟩
      | none => mapSet m k ⟨none, some item, bucket, l⟩

/-- Build unlimited fee rows from the merged map. -/
def unlRowsFromMap (loanAmount interestRate : ℚ) :
    ℕ → List (String × UnlEntry) → List UnlimitedFee
  | _, [] => []
  | i, (k, e) :: rest =>
    let displayLabel := orElseStr (e.le.bind (fun it => it.label))
      (orElseStr (e.cd.bind (fun it => it.label)) k)
    (⟨"unlimited-" ++ toString i, e.bucket, displayLabel, splitOf e.le, splitOf e.cd, "",
      (extractPerDiem displayLabel).map (fun n => (n : ℚ)),
      (extractEscrowMonths displayLabel).map (fun n => (n : ℚ)),
      some (e.bucket == "H"), none,
      (if 0 < loanAmount then some loanAmount else none),
      (if 0 < interestRate then some interestRate else none)⟩ : UnlimitedFee) ::
      unlRowsFromMap loanAmount interestRate (i + 1) rest

/-- Source `transformUnlimited`. -/
def transformUnlimited (leData cdData : Option LoanEstimateRecord) : List UnlimitedFee :=
  let loanAmount := truthyOr ((cdData.bind (fun r => r.loan_terms)).bind (fun t => t.loan_amount))
    (truthyOr ((leData.bind (fun r => r.loan_terms)).bind (fun t => t.loan_amount)) 0)
  let interestRate := truthyOr ((cdData.bind (fun r => r.loan_terms)).bind (fun t => t.interest_rate_pct))
    (truthyOr ((leData.bind (fun r => r.loan_terms)).bind (fun t => t.interest_rate_pct)) 0)
  let m1 := (itemsF leData).foldl (insertUnlLeFirst "F") []
  let m2 := (itemsG leData).foldl (insertUnlLe "G") m1
  let m3 := (itemsH leData).foldl (insertUnlLe "H") m2
  let m4 := (itemsF cdData).foldl (insertUnlCd "F") m3
  let m5 := (itemsG cdData).foldl (insertUnlCd "G") m4
  let m6 := (itemsH cdData).foldl (insertUnlCd "H") m5
  unlRowsFromMap loanAmount interestRate 0 m6

/-- The dataset of tolerance fees produced by either transformation path. -/
structure ToleranceDataset where
  origination : List ZeroToleranceFee
  cannotShop : List ZeroToleranceFee
  tenPercent : List TenPercentFee
  unlimited : List UnlimitedFee
deriving DecidableEq, Repr

/-- Source `transformTridData`, the raw-document path entry point, with the
random stream of `transformTenPercent` made explicit. -/
def transformTridData (loanEstimate closingDisclosure : Option LoanEstimateRecord)
    (rand : ℕ → ℚ) : ToleranceDataset :=
  ⟨transformSectionA loanEstimate closingDisclosure,
   transformSectionB loanEstimate closingDisclosure,
   transformTenPercent loanEstimate closingDisclosure rand,
   transformUnlimited loanEstimate closingDisclosure⟩

/-! ## Pre-matched (AI) input path (source `ai-trid-transformer.ts`) -/

/-- Tolerance category assigned by the external matcher. -/
inductive ToleranceCategory
  | zero
  | ten_percent
  | unlimited
deriving DecidableEq, Repr

/-- A fee pair produced by the external AI matcher. -/
structure MatchedFee where
  fee_name : String
  sectionTag : String
  le_amount : Option ℚ
  cd_amount : Option ℚ
  le_label : Option String
  cd_label : Option String
  match_confidence : ℚ
  tolerance_category : ToleranceCategory
  provider_name : Option String
  is_new : Bool
deriving DecidableEq, Repr

/-- The comparison payload (only `matched_fees` is read by the
transformer). -/
structure TRIDComparison where
  matched_fees : List MatchedFee
deriving DecidableEq, Repr

/-- Is a character in `[a-z0-9]` (after lowercasing)? -/
def isLowerAlnum (c : Char) : Bool :=
  ('a' ≤ c && c ≤ 'z') || c.isDigit

/-- Replace every run of characters outside `[a-z0-9]` with a single hyphen;
the flag records whether the previous character was part of such a run. -/
def sanitizeAux : Bool → List Char → List Char
  | _, [] => []
  | inRun, c :: rest =>
    if isLowerAlnum c then c :: sanitizeAux false rest
    else if inRun then sanitizeAux true rest
    else '-' :: sanitizeAux true rest

/-- Remove one leading and one trailing hyphen (`replace(/^-|-$/g, '')`). -/
def stripEdgeDashes (cs : List Char) : List Char :=
  let cs1 := match cs with
    | '-' :: r => r
    | l => l
  match cs1.reverse with
  | '-' :: r => r.reverse
  | _ => cs1

/-- Source `sanitizeId`. -/
def sanitizeId (str : String) : String :=
  String.mk (stripEdgeDashes (sanitizeAux false (str.toList.map Char.toLower)))

/-- Source `calculateChangeReason`. -/
def calculateChangeReason (leAmount cdAmount : ℚ) (isNew : Bool) : String :=
  if isNew then "NEW FEE - Not in Loan Estimate"
  else
    let diff := cdAmount - leAmount
    if diff == 0 then "No change"
    else if 0 < diff then "Increased by $" ++ fixed2 diff
    else "Decreased by $" ++ fixed2 |diff|

/-- Is a character a regex word character (`[A-Za-z0-9_]`)? -/
def isWordChar (c : Char) : Bool :=
  ('a' ≤ c && c ≤ 'z') || ('A' ≤ c && c ≤ 'Z') || c.isDigit || c == '_'

/-- Try the provider pattern `to\s+(.+?)$` anchored here, returning the
captured group: after "to", the whitespace run is consumed greedily and
backtracks only as far as needed for a nonempty line-terminator-free
remainder reaching the end of the string. -/
def tryProviderHere (cs : List Char) : Option (List Char) :=
  match matchCI "to".toList cs with
  | none => none
  | some tail =>
    let m := (tail.takeWhile Char.isWhitespace).length
    if m == 0 then none
    else
      let k := if m == tail.length then m - 1 else m
      let remainder := tail.drop k
      if 0 < k && remainder ≠ [] && remainder.all (fun c => !isLineTerm c) then
        some remainder
      else none

/-- Leftmost match of `\bto\s+(.+?)$`; the flag records whether the previous
character was a word character (for the `\b` boundary). -/
def providerScan : Bool → List Char → Option (List Char)
  | _, [] => none
  | prevWord, c :: rest =>
    match (if prevWord then none else tryProviderHere (c :: rest)) with
    | some g => some g
    | none => providerScan (isWordChar c) rest

/-- Source `extractProvider`. -/
def extractProvider (label : String) : String :=
  match providerScan false label.toList with
  | some g => String.mk (trimChars g)
  | none => "Unknown Provider"

/-- Source `transformToZeroTolerance`: a matched zero-tolerance fee becomes
a `ZeroToleranceFee` whose `permittedToShop` is `section === "B"`. -/
def transformToZeroTolerance (fee : MatchedFee) : ZeroToleranceFee :=
  ⟨"ai-zero-" ++ fee.sectionTag ++ "-" ++ sanitizeId fee.fee_name,
   (if fee.is_new then fee.fee_name ++ " [NEW]" else fee.fee_name),
   some (fee.sectionTag == "B"),
   ⟨fee.le_amount.getD 0, none, none⟩,
   ⟨fee.cd_amount.getD 0, none, none⟩,
   calculateChangeReason (fee.le_amount.getD 0) (fee.cd_amount.getD 0) fee.is_new⟩

/-- Source `transformToTenPercent`.  The TypeScript `fee.sectionTag as "C"|"E"`
cast stores the section string directly. -/
def transformToTenPercent (fee : MatchedFee) : TenPercentFee :=
  ⟨"ai-ten-" ++ fee.sectionTag ++ "-" ++ sanitizeId fee.fee_name,
   (if fee.is_new then fee.fee_name ++ " [NEW]" else fee.fee_name),
   (match fee.provider_name with
    | some p => if p == "" then extractProvider (orElseStr fee.cd_label (orElseStr fee.le_label fee.fee_name)) else p
    | none => extractProvider (orElseStr fee.cd_label (orElseStr fee.le_label fee.fee_name))),
   fee.sectionTag,
   fee.match_confidence,
   decide ((7 : ℚ) / 10 ≤ fee.match_confidence),
   fee.match_confidence,
   ⟨fee.le_amount.getD 0, none, none⟩,
   ⟨fee.cd_amount.getD 0, none, none⟩,
   calculateChangeReason (fee.le_amount.getD 0) (fee.cd_amount.getD 0) fee.is_new,
   some (strIncludes (String.mk (fee.fee_name.toList.map Char.toLower)) "recording")⟩

/-- Source `transformToUnlimited`.  The `fee.sectionTag as "F"|"G"|"H"` cast
stores the section string directly. -/
def transformToUnlimited (fee : MatchedFee) : UnlimitedFee :=
  ⟨"ai-unlim-" ++ fee.sectionTag ++ "-" ++ sanitizeId fee.fee_name,
   fee.sectionTag,
   (if fee.is_new then fee.fee_name ++ " [NEW]" else fee.fee_name),
   ⟨fee.le_amount.getD 0, none, none⟩,
   ⟨fee.cd_amount.getD 0, none, none⟩,
   calculateChangeReason (fee.le_amount.getD 0) (fee.cd_amount.getD 0) fee.is_new,
   (extractPerDiem fee.fee_name).map (fun n => (n : ℚ)),
   (extractEscrowMonths fee.fee_name).map (fun n => (n : ℚ)),
   some (strIncludes (String.mk (fee.fee_name.toList.map Char.toLower)) "optional"),
   some (!(strIncludes (String.mk (fee.fee_name.toList.map Char.toLower)) "optional")),
   none, none⟩

/-- One step of the dispatch loop of `transformAIMatchedData`: a fee with
both amounts zero or absent is dropped; otherwise it is routed by tolerance
category (zero fees additionally by section "A" / "B"). -/
def aiDispatch (acc : ToleranceDataset) (fee : MatchedFee) : ToleranceDataset :=
  if fee.le_amount.getD 0 == 0 && fee.cd_amount.getD 0 == 0 then acc
  else if fee.tolerance_category == ToleranceCategory.zero then
    (if fee.sectionTag == "A" then
      { acc with origination := acc.origination ++ [transformToZeroTolerance fee] }
    else if fee.sectionTag == "B" then
      { acc with cannotShop := acc.cannotShop ++ [transformToZeroTolerance fee] }
    else acc)
  else if fee.tolerance_category == ToleranceCategory.ten_percent then
    { acc with tenPercent := acc.tenPercent ++ [transformToTenPercent fee] }
  else if fee.tolerance_category == ToleranceCategory.unlimited then
    { acc with unlimited := acc.unlimited ++ [transformToUnlimited fee] }
  else acc

/-- Source `transformAIMatchedData`. -/
def transformAIMatchedData (tridComparison : Option TRIDComparison) : ToleranceDataset :=
  match tridComparison with
  | none => ⟨[], [], [], []⟩
  | some tc => tc.matched_fees.foldl aiDispatch ⟨[], [], [], []⟩

/-! ## Headline figure (the `totalDifference` memo of the data page, which
evaluates every bucket with default options and an empty override map) -/

/-- The total-difference figure shown for headline display. -/
def totalDifference (dataset : ToleranceDataset) : ℚ :=
  let zeroA := evaluateZeroTolerance dataset.origination ZBucket.A noOptions
  let zeroB := evaluateZeroTolerance dataset.cannotShop ZBucket.B noOptions
  let tenPercent := evaluateTenPercent dataset.tenPercent [] noOptions
  let unlimitedRows := evaluateUnlimited dataset.unlimited
  let zeroADiff := zeroA.subtotalCD - zeroA.subtotalLE
  let zeroBDiff := zeroB.subtotalCD - zeroB.subtotalLE
  let tenPercentDiff := tenPercent.cdTotal - tenPercent.leBase
  let unlimitedDiff := (unlimitedRows.map (fun r => r.cd.borrower - r.le.borrower)).sum
  zeroADiff + zeroBDiff + tenPercentDiff + unlimitedDiff

/-! ## Concrete fixtures used by witnesses and counterexamples -/

/-- A zero-tolerance fee moving 1000 to 1000.50 (within the cushion). -/
def zfee1 : ZeroToleranceFee :=
  ⟨"z1", "Origination Fee", some false, ⟨1000, none, none⟩, ⟨2001 / 2, none, none⟩, ""⟩

/-- A zero-tolerance fee moving 1000 to 1002 (a violation). -/
def zfee2 : ZeroToleranceFee :=
  ⟨"z2", "Underwriting Fee", some false, ⟨1000, none, none⟩, ⟨1002, none, none⟩, ""⟩

/-- A permitted-to-shop fee sitting in the cannot-shop bucket, delta 0. -/
def zfeeB : ZeroToleranceFee :=
  ⟨"zb", "Appraisal Fee", some true, ⟨100, none, none⟩, ⟨100, none, none⟩, ""⟩

/-- A whitelisted, confidently matched ten-percent fee (400 to 450). -/
def tfee1 : TenPercentFee :=
  ⟨"t1", "Title Fee", "Acme Title", "C", 1, true, 19 / 20,
   ⟨400, none, none⟩, ⟨450, none, none⟩, "", none⟩

/-- A whitelisted, confidently matched ten-percent fee (300 to 350). -/
def tfee2 : TenPercentFee :=
  ⟨"t2", "Survey Fee", "Acme Survey", "C", 1, true, 19 / 20,
   ⟨300, none, none⟩, ⟨350, none, none⟩, "", none⟩

/-- A whitelisted, confidently matched ten-percent fee (300 to 350). -/
def tfee3 : TenPercentFee :=
  ⟨"t3", "Pest Inspection", "Acme Pest", "C", 1, true, 19 / 20,
   ⟨300, none, none⟩, ⟨350, none, none⟩, "", none⟩

/-- An off-whitelist, low-confidence ten-percent fee. -/
def tfeeLow : TenPercentFee :=
  ⟨"t4", "Courier Fee", "Unknown", "C", 1, false, 1 / 2,
   ⟨10, none, none⟩, ⟨20, none, none⟩, "", none⟩

/-- A bucket-F prepaid-interest fee with a wildly deviating CD amount. -/
def ufeeF : UnlimitedFee :=
  ⟨"u1", "F", "Prepaid interest 20 days", ⟨1000, none, none⟩, ⟨5000, none, none⟩, "",
   some 20, none, none, none, some 300000, some (13 / 2)⟩

/-- A bucket-F fee whose per-diem day count is present but zero. -/
def ufeeZeroDays : UnlimitedFee :=
  ⟨"u2", "F", "Prepaid interest", ⟨0, none, none⟩, ⟨100, none, none⟩, "",
   some 0, none, none, none, some 300000, some (13 / 2)⟩

/-- An unlimited fee whose CD amount carries a fractional half cent. -/
def ufeeFrac : UnlimitedFee :=
  ⟨"u3", "F", "Recording surcharge", ⟨0, none, none⟩, ⟨201 / 200, none, none⟩, "",
   none, none, none, none, none, none⟩

/-- A line item explicitly tagged as seller-paid. -/
def itemSeller : LineItem :=
  ⟨some "Owner Title Policy", some 100, none, some Payer.seller, none⟩

/-- A matched zero-tolerance fee in section B. -/
def mfeeB : MatchedFee :=
  ⟨"Appraisal Fee", "B", some 500, some 600, none, none, 9 / 10,
   ToleranceCategory.zero, none, false⟩

/-- A labeled section-C line item. -/
def liTitle : LineItem :=
  ⟨some "Title Fee", some 100, none, none, none⟩

/-- A section-C block holding `liTitle`. -/
def secCFix : SectionWithItems :=
  ⟨none, none, some [liTitle]⟩

/-- A loan estimate record exposing only section C. -/
def leDocC6 : LoanEstimateRecord :=
  ⟨none, some ⟨some ⟨none, none, some secCFix, none⟩, none⟩⟩

/-- A random stream whose draws all exceed 0.3. -/
def randHigh : ℕ → ℚ := fun _ => 1 / 2

/-- A random stream whose draws are all zero. -/
def randLow : ℕ → ℚ := fun _ => 0

/-- Two LE items with distinct labels but the same normalized key (amounts
left absent so the merge facts are fully decidable). -/
def itDup1 : LineItem := ⟨some "1. Appraisal Fee", none, none, none, none⟩

/-- A second LE item normalizing to the same key as `itDup1`. -/
def itDup2 : LineItem := ⟨some "2. Appraisal Fee", none, none, none, none⟩

/-- An LE item ("Credit Report Fee"). -/
def itCR : LineItem := ⟨some "Credit Report Fee", none, none, none, none⟩

/-- A CD item whose label normalizes to the same key as `itCR`. -/
def itCR2 : LineItem := ⟨some "Credit Report Fee to Equifax", none, none, none, none⟩

/-- A CD item with a different normalized key. -/
def itTax : LineItem := ⟨some "Tax Service Fee", none, none, none, none⟩

/-- Options granting a lender credit of 1. -/
def optsCred1 : RuleOptions := ⟨none, none, none, some 1⟩

/-- Options granting a lender credit of 50. -/
def optsCred50 : RuleOptions := ⟨none, none, none, some 50⟩

/-- The dataset holding only the fractional-cent unlimited fee. -/
def dsC9 : ToleranceDataset := ⟨[], [], [], [ufeeFrac]⟩

/-! ## General lemmas about the evaluators -/

theorem zeroCurePass_shape (c t : ℚ) (l : List ZeroToleranceDisplayRow) :
    ∀ r ∈ zeroCurePass c t l, ∃ r0 ∈ l,
      r.toZeroToleranceFee = r0.toZeroToleranceFee ∧ r.delta = r0.delta ∧
      r.status = r0.status ∧ r.cureAmount = r0.cureAmount ∧
      (r.flags = r0.flags ∨ r.flags = r0.flags ++ [curedZeroFlag c]) := by
  intro r hr
  unfold zeroCurePass at hr
  split at hr
  · obtain ⟨r0, hr0, hEq⟩ := List.mem_map.mp hr
    refine ⟨r0, hr0, ?_⟩
    by_cases hcond : (decide (0 < r0.cureAmount) && decide (t ≤ c)) = true
    · rw [if_pos hcond] at hEq
      subst hEq
      exact ⟨rfl, rfl, rfl, rfl, Or.inr rfl⟩
    · rw [if_neg hcond] at hEq
      subst hEq
      exact ⟨rfl, rfl, rfl, rfl, Or.inl rfl⟩
  · exact ⟨r, hr, rfl, rfl, rfl, rfl, Or.inl rfl⟩

theorem tenCurePass_shape (c o : ℚ) (l : List TenPercentDisplayRow) :
    ∀ r ∈ tenCurePass c o l, ∃ r0 ∈ l,
      r.toTenPercentFee = r0.toTenPercentFee ∧ r.delta = r0.delta ∧
      r.status = r0.status ∧ r.effectiveOnWhitelist = r0.effectiveOnWhitelist ∧
      r.inTenGroup = r0.inTenGroup ∧
      (r.flags = r0.flags ∨ r.flags = r0.flags ++ [curedTenFlag c]) := by
  intro r hr
  unfold tenCurePass at hr
  split at hr
  · obtain ⟨r0, hr0, hEq⟩ := List.mem_map.mp hr
    refine ⟨r0, hr0, ?_⟩
    by_cases hcond : (r0.inTenGroup && decide (0 < r0.delta)) = true
    · rw [if_pos hcond] at hEq
      subst hEq
      exact ⟨rfl, rfl, rfl, rfl, rfl, Or.inr rfl⟩
    · rw [if_neg hcond] at hEq
      subst hEq
      exact ⟨rfl, rfl, rfl, rfl, rfl, Or.inl rfl⟩
  · exact ⟨r, hr, rfl, rfl, rfl, rfl, rfl, Or.inl rfl⟩

theorem evaluateZeroTolerance_rows_eq (rows : List ZeroToleranceFee) (bucket : ZBucket)
    (opts : RuleOptions) :
    (evaluateZeroTolerance rows bucket opts).rows =
      zeroCurePass (resolveOptions opts).lenderCredits
        (currency (((rows.map (zeroRow bucket (resolveOptions opts))).map
          (fun r => r.cureAmount)).sum))
        (rows.map (zeroRow bucket (resolveOptions opts))) := rfl

theorem evaluateTenPercent_rows_eq (rows : List TenPercentFee) (ov : TenPercentOverrideMap)
    (opts : RuleOptions) :
    (evaluateTenPercent rows ov opts).rows =
      tenCurePass (resolveOptions opts).lenderCredits
        (evaluateTenPercent rows ov opts).overage
        (rows.map (tenRow ov (resolveOptions opts))) := rfl

/-! ## C1 -/

/-- C1: every fee row produced by the three evaluators carries
`delta = round2(cd.borrower - le.borrower)` computed from the row's own
`le`/`cd` splits, never stored independently of them. -/
theorem claim_C1 (zrows : List ZeroToleranceFee) (zbucket : ZBucket) (zopts : RuleOptions)
    (trows : List TenPercentFee) (ov : TenPercentOverrideMap) (topts : RuleOptions)
    (urows : List UnlimitedFee) :
    (∀ r ∈ (evaluateZeroTolerance zrows zbucket zopts).rows,
      r.delta = round2 (r.cd.borrower - r.le.borrower)) ∧
    (∀ r ∈ (evaluateTenPercent trows ov topts).rows,
      r.delta = round2 (r.cd.borrower - r.le.borrower)) ∧
    (∀ r ∈ evaluateUnlimited urows,
      r.delta = round2 (r.cd.borrower - r.le.borrower)) := by
  refine ⟨?_, ?_, ?_⟩
  · intro r hr
    rw [evaluateZeroTolerance_rows_eq] at hr
    obtain ⟨r0, hr0, hfee, hdelta, -, -, -⟩ := zeroCurePass_shape _ _ _ r hr
    obtain ⟨a, -, ha⟩ := List.mem_map.mp hr0
    have hle : r.le = r0.le := congrArg ZeroToleranceFee.le hfee
    have hcd : r.cd = r0.cd := congrArg ZeroToleranceFee.cd hfee
    subst ha
    rw [hle, hcd, hdelta]
    rfl
  · intro r hr
    rw [evaluateTenPercent_rows_eq] at hr
    obtain ⟨r0, hr0, hfee, hdelta, -, -, -, -⟩ := tenCurePass_shape _ _ _ r hr
    obtain ⟨a, -, ha⟩ := List.mem_map.mp hr0
    have hle : r.le = r0.le := congrArg TenPercentFee.le hfee
    have hcd : r.cd = r0.cd := congrArg TenPercentFee.cd hfee
    subst ha
    rw [hle, hcd, hdelta]
    rfl
  · intro r hr
    obtain ⟨a, -, ha⟩ := List.mem_map.mp hr
    subst ha
    rfl

theorem zero_mem_of_no_credit (rows : List ZeroToleranceFee) (bucket : ZBucket)
    (a : ZeroToleranceFee) (ha : a ∈ rows) :
    zeroRow bucket (resolveOptions noOptions) a ∈
      (evaluateZeroTolerance rows bucket noOptions).rows := by
  rw [evaluateZeroTolerance_rows_eq]
  unfold zeroCurePass
  rw [if_neg]
  · exact List.mem_map.mpr ⟨a, ha, rfl⟩
  · simp only [Bool.and_eq_true, decide_eq_true_eq, resolveOptions, noOptions, DEFAULTS,
      Option.getD_none]
    rintro ⟨h1, -⟩
    exact absurd h1 (lt_irrefl 0)

theorem ten_mem_rows (rows : List TenPercentFee) (ov : TenPercentOverrideMap)
    (opts : RuleOptions) (a : TenPercentFee) (ha : a ∈ rows)
    (hng : (tenRow ov (resolveOptions opts) a).inTenGroup = false ∨
      ¬ 0 < (tenRow ov (resolveOptions opts) a).delta ∨
      ¬ 0 < (resolveOptions opts).lenderCredits) :
    tenRow ov (resolveOptions opts) a ∈ (evaluateTenPercent rows ov opts).rows := by
  rw [evaluateTenPercent_rows_eq]
  unfold tenCurePass
  split
  · rename_i hcond
    refine List.mem_map.mpr ⟨tenRow ov (resolveOptions opts) a, List.mem_map.mpr ⟨a, ha, rfl⟩, ?_⟩
    rw [if_neg]
    simp only [Bool.and_eq_true, decide_eq_true_eq] at hcond ⊢
    rintro ⟨hg, hd⟩
    rcases hng with h | h | h
    · rw [hg] at h
      cases h
    · exact h hd
    · rcases hcond with ⟨ho, hc⟩
      exact h (lt_of_lt_of_le ho hc)
  · exact List.mem_map.mpr ⟨a, ha, rfl⟩

/-- C1 witness: the delta law checked on one concrete row of each
evaluator. -/
theorem claim_C1_witness :
    ((zeroRow ZBucket.A (resolveOptions noOptions) zfee1).delta =
      round2 ((zeroRow ZBucket.A (resolveOptions noOptions) zfee1).cd.borrower -
        (zeroRow ZBucket.A (resolveOptions noOptions) zfee1).le.borrower)) ∧
    ((tenRow [] (resolveOptions noOptions) tfeeLow).delta =
      round2 ((tenRow [] (resolveOptions noOptions) tfeeLow).cd.borrower -
        (tenRow [] (resolveOptions noOptions) tfeeLow).le.borrower)) ∧
    ((unlimitedRow ufeeF).delta =
      round2 ((unlimitedRow ufeeF).cd.borrower - (unlimitedRow ufeeF).le.borrower)) :=
  ⟨(claim_C1 [zfee1] ZBucket.A noOptions [] [] noOptions []).1 _
      (zero_mem_of_no_credit [zfee1] ZBucket.A zfee1 (by simp)),
   (claim_C1 [] ZBucket.A noOptions [tfeeLow] [] noOptions []).2.1 _
      (ten_mem_rows [tfeeLow] [] noOptions tfeeLow (by simp)
        (Or.inr (Or.inr (by simp [resolveOptions, noOptions, DEFAULTS])))),
   (claim_C1 [] ZBucket.A noOptions [] [] noOptions [ufeeF]).2.2 _
      (List.mem_map.mpr ⟨ufeeF, by simp, rfl⟩)⟩

/-! ## C2 -/

theorem zeroRow_delta_eq (bucket : ZBucket) (cfg : ResolvedRuleOptions) (row : ZeroToleranceFee) :
    (zeroRow bucket cfg row).delta = borrowerDelta row.le row.cd := rfl

theorem zeroRow_fee_eq (bucket : ZBucket) (cfg : ResolvedRuleOptions) (row : ZeroToleranceFee) :
    (zeroRow bucket cfg row).toZeroToleranceFee = row := rfl

theorem zeroRow_status_fail_iff (bucket : ZBucket) (cfg : ResolvedRuleOptions)
    (row : ZeroToleranceFee) :
    (zeroRow bucket cfg row).status = RowStatus.FAIL ↔
      cfg.zeroThreshold < borrowerDelta row.le row.cd := by
  unfold zeroRow
  by_cases ht : cfg.zeroThreshold < borrowerDelta row.le row.cd <;>
    by_cases han : (bucket == ZBucket.B && row.permittedToShop.getD false) = true <;>
      simp [ht, han]

theorem zeroRow_anomaly_flag (bucket : ZBucket) (cfg : ResolvedRuleOptions)
    (row : ZeroToleranceFee)
    (hb : bucket = ZBucket.B) (hp : row.permittedToShop.getD false = true) :
    ToleranceFlag.SECTION_PLACEMENT_MISMATCH ∈ flagCodes (zeroRow bucket cfg row).flags ∧
      (borrowerDelta row.le row.cd ≤ cfg.zeroThreshold →
        (zeroRow bucket cfg row).status = RowStatus.REVIEW) := by
  subst hb
  unfold zeroRow
  by_cases ht : cfg.zeroThreshold < borrowerDelta row.le row.cd <;>
    simp [ht, hp, flagCodes, buildFlag]

theorem zeroRow_fail_data (bucket : ZBucket) (cfg : ResolvedRuleOptions)
    (row : ZeroToleranceFee) (hf : (zeroRow bucket cfg row).status = RowStatus.FAIL) :
    (∃ f ∈ (zeroRow bucket cfg row).flags,
        f.code = ToleranceFlag.ZERO_LINE_OVERAGE ∧ f.severity = Severity.error) ∧
      (zeroRow bucket cfg row).cureAmount =
        currency (borrowerDelta row.le row.cd - cfg.zeroThreshold) := by
  have ht := (zeroRow_status_fail_iff bucket cfg row).mp hf
  rw [zeroRow_status_fail_iff] at hf
  unfold zeroRow
  by_cases han : (bucket == ZBucket.B && row.permittedToShop.getD false) = true <;>
    simp [ht, han, buildFlag]

theorem zeroRow_nonfail_cure (bucket : ZBucket) (cfg : ResolvedRuleOptions)
    (row : ZeroToleranceFee) (hf : (zeroRow bucket cfg row).status ≠ RowStatus.FAIL) :
    (zeroRow bucket cfg row).cureAmount = 0 := by
  revert hf
  unfold zeroRow
  by_cases ht : cfg.zeroThreshold < borrowerDelta row.le row.cd <;>
    by_cases han : (bucket == ZBucket.B && row.permittedToShop.getD false) = true <;>
      simp [ht, han]

/-- C2: in `evaluateZeroTolerance`, status is FAIL exactly when
`delta > zeroThreshold` (default 1.00); a bucket-B permitted-to-shop row
gets a `SECTION_PLACEMENT_MISMATCH` warning and is downgraded to REVIEW
when the delta test alone would have passed; a FAIL row carries a
`ZERO_LINE_OVERAGE` error flag and `cureAmount = delta - zeroThreshold`,
while every PASS or REVIEW row has `cureAmount = 0`.  The threshold is a
currency value (a whole number of cents). -/
theorem claim_C2 (rows : List ZeroToleranceFee) (bucket : ZBucket) (opts : RuleOptions)
    (hc : isCents (resolveOptions opts).zeroThreshold) :
    DEFAULTS.zeroThreshold = 1 ∧
    ∀ r ∈ (evaluateZeroTolerance rows bucket opts).rows,
      (r.status = RowStatus.FAIL ↔ (resolveOptions opts).zeroThreshold < r.delta) ∧
      (bucket = ZBucket.B → r.permittedToShop.getD false = true →
        ToleranceFlag.SECTION_PLACEMENT_MISMATCH ∈ flagCodes r.flags ∧
        (r.delta ≤ (resolveOptions opts).zeroThreshold → r.status = RowStatus.REVIEW)) ∧
      (r.status = RowStatus.FAIL →
        (∃ f ∈ r.flags, f.code = ToleranceFlag.ZERO_LINE_OVERAGE ∧
          f.severity = Severity.error) ∧
        r.cureAmount = r.delta - (resolveOptions opts).zeroThreshold) ∧
      (r.status ≠ RowStatus.FAIL → r.cureAmount = 0) := by
  refine ⟨rfl, ?_⟩
  intro r hr
  rw [evaluateZeroTolerance_rows_eq] at hr
  obtain ⟨r0, hr0, hfee, hdelta, hstatus, hcure, hflags⟩ := zeroCurePass_shape _ _ _ r hr
  obtain ⟨a, -, ha⟩ := List.mem_map.mp hr0
  have hperm : r.permittedToShop = a.permittedToShop := by
    rw [congrArg ZeroToleranceFee.permittedToShop hfee, ← ha, zeroRow_fee_eq]
  have hmemflags : ∀ f, f ∈ r0.flags → f ∈ r.flags := by
    intro f hf
    rcases hflags with h | h <;> rw [h]
    · exact hf
    · exact List.mem_append_left _ hf
  have hmemcodes : ∀ cde, cde ∈ flagCodes r0.flags → cde ∈ flagCodes r.flags := by
    intro cde hcde
    obtain ⟨f, hf, hfc⟩ := List.mem_map.mp hcde
    exact List.mem_map.mpr ⟨f, hmemflags f hf, hfc⟩
  refine ⟨?_, ?_, ?_, ?_⟩
  · rw [hstatus, hdelta, ← ha, zeroRow_delta_eq]
    exact zeroRow_status_fail_iff bucket _ a
  · intro hb hp
    rw [hperm] at hp
    obtain ⟨hflag, hrev⟩ := zeroRow_anomaly_flag bucket (resolveOptions opts) a hb hp
    rw [ha] at hflag
    exact ⟨hmemcodes _ hflag, by
      rw [hdelta, hstatus, ← ha, zeroRow_delta_eq]
      exact hrev⟩
  · intro hfail
    rw [hstatus, ← ha] at hfail
    obtain ⟨⟨f, hf, hfc⟩, hcureq⟩ := zeroRow_fail_data bucket (resolveOptions opts) a hfail
    rw [ha] at hf hcureq
    refine ⟨⟨f, hmemflags f hf, hfc⟩, ?_⟩
    rw [hcure, hcureq, hdelta, ← ha, zeroRow_delta_eq]
    have hdc : isCents (borrowerDelta a.le a.cd) := round2_isCents _
    exact round2_eq_self_of_isCents (isCents_sub hdc hc)
  · intro hnf
    rw [hstatus, ← ha] at hnf
    rw [hcure, ← ha]
    exact zeroRow_nonfail_cure bucket _ a hnf

/-- C2 witness: the row rules instantiated on the concrete permitted-to-shop
bucket-B fee. -/
theorem claim_C2_witness :
    ((zeroRow ZBucket.B (resolveOptions noOptions) zfeeB).status = RowStatus.FAIL ↔
      (resolveOptions noOptions).zeroThreshold <
        (zeroRow ZBucket.B (resolveOptions noOptions) zfeeB).delta) ∧
    (ZBucket.B = ZBucket.B →
      (zeroRow ZBucket.B (resolveOptions noOptions) zfeeB).permittedToShop.getD false = true →
      ToleranceFlag.SECTION_PLACEMENT_MISMATCH ∈
        flagCodes (zeroRow ZBucket.B (resolveOptions noOptions) zfeeB).flags ∧
      ((zeroRow ZBucket.B (resolveOptions noOptions) zfeeB).delta ≤
          (resolveOptions noOptions).zeroThreshold →
        (zeroRow ZBucket.B (resolveOptions noOptions) zfeeB).status = RowStatus.REVIEW)) ∧
    ((zeroRow ZBucket.B (resolveOptions noOptions) zfeeB).status = RowStatus.FAIL →
      (∃ f ∈ (zeroRow ZBucket.B (resolveOptions noOptions) zfeeB).flags,
        f.code = ToleranceFlag.ZERO_LINE_OVERAGE ∧ f.severity = Severity.error) ∧
      (zeroRow ZBucket.B (resolveOptions noOptions) zfeeB).cureAmount =
        (zeroRow ZBucket.B (resolveOptions noOptions) zfeeB).delta -
          (resolveOptions noOptions).zeroThreshold) ∧
    ((zeroRow ZBucket.B (resolveOptions noOptions) zfeeB).status ≠ RowStatus.FAIL →
      (zeroRow ZBucket.B (resolveOptions noOptions) zfeeB).cureAmount = 0) :=
  (claim_C2 [zfeeB] ZBucket.B noOptions ⟨100, by norm_num [resolveOptions, noOptions, DEFAULTS]⟩).2 _
    (zero_mem_of_no_credit [zfeeB] ZBucket.B zfeeB (by simp))

/-! ## C4 -/

/-- C4 counterexample: the claim demands that an item explicitly tagged
seller contribute 0 to the borrower amount, but `getBorrowerAmount` falls
through to `return item.amount` and yields the full amount. -/
theorem claim_C4_counterexample :
    ¬ (∀ item : LineItem, item.payer = some Payer.seller →
        getBorrowerAmount (some item) = 0) := by
  intro h
  have h100 := h itemSeller rfl
  rw [show getBorrowerAmount (some itemSeller) = 100 from rfl] at h100
  exact absurd h100 (by norm_num)

/-- C4 amended: `getBorrowerAmount` returns the item's amount whenever the
item and amount are present, regardless of payer or sub-label tags (the
borrower checks are redundant fall-throughs), while `getSellerAmount` /
`getOtherAmount` return the amount only on an explicit seller/other tag
match ("others" for the other-party sub-label) and 0 otherwise; an absent
item or a null amount gives 0 in every extractor. -/
theorem claim_C4 :
    (∀ (item : LineItem) (amt : ℚ), item.amount = some amt →
      getBorrowerAmount (some item) = amt ∧
      getSellerAmount (some item) =
        (if item.payer = some Payer.seller ∨
            item.sub_label = some SubLabel.seller_paid_at_closing ∨
            item.sub_label = some SubLabel.seller_paid_before_closing then amt else 0) ∧
      getOtherAmount (some item) =
        (if item.payer = some Payer.other ∨
            item.sub_label = some SubLabel.paid_by_others then amt else 0)) ∧
    (∀ item : LineItem, item.amount = none →
      getBorrowerAmount (some item) = 0 ∧ getSellerAmount (some item) = 0 ∧
      getOtherAmount (some item) = 0) ∧
    getBorrowerAmount none = 0 ∧ getSellerAmount none = 0 ∧ getOtherAmount none = 0 := by
  refine ⟨?_, ?_, rfl, rfl, rfl⟩
  · rintro ⟨label, amount, sub, payer, timing⟩ amt hamt
    simp only at hamt
    subst hamt
    rcases payer with - | p <;> [skip; cases p] <;>
      rcases sub with - | sl <;> [skip; cases sl; skip; cases sl; skip; cases sl; skip; cases sl] <;>
        simp [getBorrowerAmount, getSellerAmount, getOtherAmount, subLabelText, strIncludes,
          containsChars, startsWithChars]
  · rintro ⟨label, amount, sub, payer, timing⟩ hamt
    simp only at hamt
    subst hamt
    exact ⟨rfl, rfl, rfl⟩

/-- C4 witness: the amended extractor law at the concrete seller-tagged
item. -/
theorem claim_C4_witness :
    getBorrowerAmount (some itemSeller) = 100 ∧
    getSellerAmount (some itemSeller) =
      (if itemSeller.payer = some Payer.seller ∨
          itemSeller.sub_label = some SubLabel.seller_paid_at_closing ∨
          itemSeller.sub_label = some SubLabel.seller_paid_before_closing then 100 else 0) ∧
    getOtherAmount (some itemSeller) =
      (if itemSeller.payer = some Payer.other ∨
          itemSeller.sub_label = some SubLabel.paid_by_others then 100 else 0) :=
  claim_C4.1 itemSeller 100 rfl

/-! ## Evaluation lemmas for concrete roundings -/

theorem currency_zero : currency 0 = 0 :=
  round2_eq_self_of_isCents isCents_zero

theorem round2_eval_nonneg (q : ℚ) (m : ℤ) (h0 : 0 ≤ 100 * q)
    (h1 : (m : ℚ) ≤ 100 * q + 1 / 2) (h2 : 100 * q + 1 / 2 < m + 1) :
    round2 q = (m : ℚ) / 100 := by
  unfold round2 roundHalfAway
  rw [if_pos h0]
  have : ⌊100 * q + 1 / 2⌋ = m := by
    rw [Int.floor_eq_iff]
    exact ⟨h1, by linarith⟩
  rw [this]

theorem round2_eval_neg (q : ℚ) (m : ℤ) (h0 : ¬ 0 ≤ 100 * q)
    (h1 : ((-m : ℤ) : ℚ) ≤ -(100 * q) + 1 / 2) (h2 : -(100 * q) + 1 / 2 < (-m : ℤ) + 1) :
    round2 q = (m : ℚ) / 100 := by
  unfold round2 roundHalfAway
  rw [if_neg h0]
  have : ⌊-(100 * q) + 1 / 2⌋ = -m := by
    rw [Int.floor_eq_iff]
    refine ⟨h1, ?_⟩
    push_cast at h2 ⊢
    linarith
  rw [this]
  push_cast
  ring_nf

theorem zeroCurePass_nil (c t : ℚ) : zeroCurePass c t [] = [] := by
  unfold zeroCurePass
  split <;> rfl

theorem tenCurePass_nil (c o : ℚ) : tenCurePass c o [] = [] := by
  unfold tenCurePass
  split <;> rfl

theorem evaluateZeroTolerance_nil (bucket : ZBucket) (opts : RuleOptions) :
    evaluateZeroTolerance [] bucket opts = ⟨[], 0, 0, 0, 0, 0, 0⟩ := by
  unfold evaluateZeroTolerance
  simp only [List.map_nil, List.sum_nil, zeroCurePass_nil, List.countP_nil, currency_zero]

theorem evaluateTenPercent_nil (ov : TenPercentOverrideMap) (opts : RuleOptions) :
    evaluateTenPercent [] ov opts = ⟨[], 0, 0, 0, 0, TenStatus.PASS⟩ := by
  unfold evaluateTenPercent
  simp only [List.map_nil, List.filter_nil, List.sum_nil, currency_zero, tenCurePass_nil]
  rw [show currency (0 * (11 / 10)) = 0 from by rw [show ((0 : ℚ) * (11 / 10)) = 0 from by ring, currency_zero]]
  rw [show currency (max 0 (0 - 0)) = 0 from by rw [show (max 0 ((0 : ℚ) - 0)) = 0 from by simp, currency_zero]]
  rw [if_neg (lt_irrefl 0)]

/-! ## C9 -/

/-- C9 counterexample: a dataset with a single unlimited fee whose CD
borrower amount is 1.005 makes `totalDifference` equal to 1.005 — a figure
carrying a fractional half cent, so the exposed total is not rounded to 2
decimal places at the aggregation boundary. -/
theorem claim_C9_counterexample :
    totalDifference dsC9 = 201 / 200 ∧
    round2 (201 / 200) = 101 / 100 ∧
    totalDifference dsC9 ≠ round2 (totalDifference dsC9) := by
  have hround : round2 (201 / 200 : ℚ) = 101 / 100 := by
    have := round2_eval_nonneg (201 / 200) 101 (by norm_num) (by norm_num) (by norm_num)
    rw [this]
    norm_num
  have htot : totalDifference dsC9 = 201 / 200 := by
    unfold totalDifference
    rw [show dsC9.origination = [] from rfl, show dsC9.cannotShop = [] from rfl,
      show dsC9.tenPercent = [] from rfl,
      evaluateZeroTolerance_nil, evaluateZeroTolerance_nil, evaluateTenPercent_nil]
    show (0 : ℚ) - 0 + (0 - 0) + (0 - 0) +
      ((List.map (fun r => r.cd.borrower - r.le.borrower)
        (evaluateUnlimited dsC9.unlimited)).sum) = 201 / 200
    show (0 : ℚ) - 0 + (0 - 0) + (0 - 0) +
      ((201 / 200 : ℚ) - 0 + 0) = 201 / 200
    norm_num
  refine ⟨htot, hround, ?_⟩
  rw [htot, hround]
  norm_num

/-- C9 amended: `totalDifference` is the sum of the zero-A, zero-B and
ten-percent bucket subtotal differences plus the RAW (unrounded) sum of
unlimited-row borrower differences, and the final sum itself is not rounded;
the three bucket contributions are whole-cent figures because the evaluator
subtotals are rounded, but the unlimited contribution is accumulated without
rounding. -/
theorem claim_C9 (dataset : ToleranceDataset) :
    totalDifference dataset =
      ((evaluateZeroTolerance dataset.origination ZBucket.A noOptions).subtotalCD -
        (evaluateZeroTolerance dataset.origination ZBucket.A noOptions).subtotalLE) +
      ((evaluateZeroTolerance dataset.cannotShop ZBucket.B noOptions).subtotalCD -
        (evaluateZeroTolerance dataset.cannotShop ZBucket.B noOptions).subtotalLE) +
      ((evaluateTenPercent dataset.tenPercent [] noOptions).cdTotal -
        (evaluateTenPercent dataset.tenPercent [] noOptions).leBase) +
      ((evaluateUnlimited dataset.unlimited).map
        (fun r => r.cd.borrower - r.le.borrower)).sum ∧
    isCents ((evaluateZeroTolerance dataset.origination ZBucket.A noOptions).subtotalCD -
      (evaluateZeroTolerance dataset.origination ZBucket.A noOptions).subtotalLE) ∧
    isCents ((evaluateZeroTolerance dataset.cannotShop ZBucket.B noOptions).subtotalCD -
      (evaluateZeroTolerance dataset.cannotShop ZBucket.B noOptions).subtotalLE) ∧
    isCents ((evaluateTenPercent dataset.tenPercent [] noOptions).cdTotal -
      (evaluateTenPercent dataset.tenPercent [] noOptions).leBase) := by
  refine ⟨rfl, ?_, ?_, ?_⟩ <;>
    exact isCents_sub (round2_isCents _) (round2_isCents _)

/-! ## C10 -/

theorem aiDispatch_cannotShop (acc : ToleranceDataset) (fee : MatchedFee) :
    (aiDispatch acc fee).cannotShop = acc.cannotShop ∨
    ((fee.sectionTag == "B") = true ∧
      (aiDispatch acc fee).cannotShop = acc.cannotShop ++ [transformToZeroTolerance fee]) := by
  unfold aiDispatch
  split
  · exact Or.inl rfl
  split
  · split
    · exact Or.inl rfl
    split
    · rename_i hb
      exact Or.inr ⟨hb, rfl⟩
    · exact Or.inl rfl
  split
  · exact Or.inl rfl
  split
  · exact Or.inl rfl
  · exact Or.inl rfl

theorem aiFold_cannotShop_inv (fees : List MatchedFee) :
    ∀ acc : ToleranceDataset,
      (∀ f ∈ acc.cannotShop, f.permittedToShop = some true) →
      ∀ f ∈ (List.foldl aiDispatch acc fees).cannotShop, f.permittedToShop = some true := by
  induction fees with
  | nil =>
    intro acc h
    simpa using h
  | cons fee rest ih =>
    intro acc h
    rw [List.foldl_cons]
    apply ih
    intro f hf
    rcases aiDispatch_cannotShop acc fee with heq | ⟨hb, heq⟩
    · rw [heq] at hf
      exact h f hf
    · rw [heq] at hf
      rcases List.mem_append.mp hf with hl | hr
      · exact h f hl
      · rw [List.mem_singleton.mp hr]
        show (transformToZeroTolerance fee).permittedToShop = some true
        show some (fee.sectionTag == "B") = some true
        rw [hb]

/-- C10: on the AI input path, every zero-tolerance fee with section "B" is
transformed with `permittedToShop = true`; consequently, after
`evaluateZeroTolerance` over bucket "B", every such row carries a
`SECTION_PLACEMENT_MISMATCH` flag and is never plain PASS: it is REVIEW when
`delta ≤ zeroThreshold` and FAIL otherwise. -/
theorem claim_C10 (tc : Option TRIDComparison) (opts : RuleOptions) :
    (∀ fee : MatchedFee, fee.sectionTag = "B" →
      (transformToZeroTolerance fee).permittedToShop = some true) ∧
    (∀ f ∈ (transformAIMatchedData tc).cannotShop, f.permittedToShop = some true) ∧
    (∀ r ∈ (evaluateZeroTolerance (transformAIMatchedData tc).cannotShop ZBucket.B opts).rows,
      ToleranceFlag.SECTION_PLACEMENT_MISMATCH ∈ flagCodes r.flags ∧
      r.status ≠ RowStatus.PASS ∧
      (r.delta ≤ (resolveOptions opts).zeroThreshold → r.status = RowStatus.REVIEW) ∧
      ((resolveOptions opts).zeroThreshold < r.delta → r.status = RowStatus.FAIL)) := by
  have hperm : ∀ f ∈ (transformAIMatchedData tc).cannotShop, f.permittedToShop = some true := by
    cases tc with
    | none =>
      intro f hf
      simp [transformAIMatchedData] at hf
    | some t =>
      exact aiFold_cannotShop_inv t.matched_fees ⟨[], [], [], []⟩ (by intro f hf; simp at hf)
  refine ⟨?_, hperm, ?_⟩
  · intro fee hb
    show some (fee.sectionTag == "B") = some true
    rw [show (fee.sectionTag == "B") = true from by rw [hb]; exact beq_self_eq_true "B"]
  · intro r hr
    rw [evaluateZeroTolerance_rows_eq] at hr
    obtain ⟨r0, hr0, hfee, hdelta, hstatus, -, hflags⟩ := zeroCurePass_shape _ _ _ r hr
    obtain ⟨a, hamem, ha⟩ := List.mem_map.mp hr0
    have hap : a.permittedToShop = some true := hperm a hamem
    have hpt : a.permittedToShop.getD false = true := by rw [hap]; rfl
    obtain ⟨hflag, hrev⟩ := zeroRow_anomaly_flag ZBucket.B (resolveOptions opts) a rfl hpt
    rw [ha] at hflag hrev
    have hmemcodes : ToleranceFlag.SECTION_PLACEMENT_MISMATCH ∈ flagCodes r.flags := by
      obtain ⟨f, hf, hfc⟩ := List.mem_map.mp hflag
      refine List.mem_map.mpr ⟨f, ?_, hfc⟩
      rcases hflags with h | h <;> rw [h]
      · exact hf
      · exact List.mem_append_left _ hf
    have hfail : r.status = RowStatus.FAIL ↔ (resolveOptions opts).zeroThreshold < r.delta := by
      rw [hstatus, hdelta, ← ha, zeroRow_delta_eq]
      exact zeroRow_status_fail_iff ZBucket.B _ a
    have hrev2 : r.delta ≤ (resolveOptions opts).zeroThreshold → r.status = RowStatus.REVIEW := by
      intro hle
      rw [hstatus]
      rw [hdelta, ← ha, zeroRow_delta_eq] at hle
      exact hrev hle
    refine ⟨hmemcodes, ?_, hrev2, fun hlt => hfail.mpr hlt⟩
    rcases le_or_lt r.delta (resolveOptions opts).zeroThreshold with hle | hlt
    · rw [hrev2 hle]
      simp
    · rw [hfail.mpr hlt]
      simp

theorem aiDispatch_mfeeB :
    aiDispatch ⟨[], [], [], []⟩ mfeeB = ⟨[], [transformToZeroTolerance mfeeB], [], []⟩ := by
  unfold aiDispatch
  rw [if_neg, if_pos, if_neg, if_pos]
  · rfl
  · rfl
  · show ¬((mfeeB.sectionTag == "A") = true)
    decide
  · rfl
  · show ¬((mfeeB.le_amount.getD 0 == 0 && mfeeB.cd_amount.getD 0 == 0) = true)
    simp only [mfeeB, Option.getD_some, Bool.and_eq_true, beq_iff_eq]
    rintro ⟨h, -⟩
    norm_num at h

theorem transformAIMatchedData_mfeeB :
    transformAIMatchedData (some ⟨[mfeeB]⟩) = ⟨[], [transformToZeroTolerance mfeeB], [], []⟩ := by
  show List.foldl aiDispatch ⟨[], [], [], []⟩ [mfeeB] = _
  rw [List.foldl_cons, List.foldl_nil, aiDispatch_mfeeB]

/-- C10 witness: the invariant instantiated on one concrete matched
section-B zero-tolerance fee. -/
theorem claim_C10_witness :
    (transformToZeroTolerance mfeeB).permittedToShop = some true ∧
    (ToleranceFlag.SECTION_PLACEMENT_MISMATCH ∈ flagCodes
      (zeroRow ZBucket.B (resolveOptions noOptions) (transformToZeroTolerance mfeeB)).flags ∧
     (zeroRow ZBucket.B (resolveOptions noOptions) (transformToZeroTolerance mfeeB)).status ≠
       RowStatus.PASS ∧
     ((zeroRow ZBucket.B (resolveOptions noOptions) (transformToZeroTolerance mfeeB)).delta ≤
        (resolveOptions noOptions).zeroThreshold →
       (zeroRow ZBucket.B (resolveOptions noOptions) (transformToZeroTolerance mfeeB)).status =
         RowStatus.REVIEW) ∧
     ((resolveOptions noOptions).zeroThreshold <
        (zeroRow ZBucket.B (resolveOptions noOptions) (transformToZeroTolerance mfeeB)).delta →
       (zeroRow ZBucket.B (resolveOptions noOptions) (transformToZeroTolerance mfeeB)).status =
         RowStatus.FAIL)) :=
  ⟨(claim_C10 (some ⟨[mfeeB]⟩) noOptions).1 mfeeB rfl,
   (claim_C10 (some ⟨[mfeeB]⟩) noOptions).2.2 _
     (zero_mem_of_no_credit _ ZBucket.B _ (by rw [transformAIMatchedData_mfeeB]; simp))⟩

/-! ## C3 -/

theorem map_filter_invariant {α : Type} (g : α → α) (p : α → Bool) (f : α → ℚ)
    (hp : ∀ x, p (g x) = p x) (hf : ∀ x, f (g x) = f x) (l : List α) :
    ((l.map g).filter p).map f = (l.filter p).map f := by
  induction l with
  | nil => rfl
  | cons a t ih =>
    simp only [List.map_cons, List.filter_cons, hp]
    by_cases h : p a = true
    · simp [h, List.map_cons, hf, ih]
    · simp [h, ih]

theorem tenCurePass_filter (c o : ℚ) (l : List TenPercentDisplayRow)
    (f : TenPercentDisplayRow → ℚ)
    (hf : ∀ r : TenPercentDisplayRow,
      f { r with flags := r.flags ++ [curedTenFlag c] } = f r) :
    (((tenCurePass c o l).filter (fun r => r.inTenGroup)).map f).sum =
      ((l.filter (fun r => r.inTenGroup)).map f).sum := by
  unfold tenCurePass
  split
  · rw [map_filter_invariant]
    · intro x
      by_cases hc : (x.inTenGroup && decide (0 < x.delta)) = true
      · rw [if_pos hc]
      · rw [if_neg hc]
    · intro x
      by_cases hc : (x.inTenGroup && decide (0 < x.delta)) = true
      · rw [if_pos hc]
        exact hf x
      · rw [if_neg hc]
  · rfl

/-- C3: in `evaluateTenPercent`, a row's `effectiveOnWhitelist` is the
override map's `includeInGroup` when present for the row's id and otherwise
the row's own `onWhitelist`; `inTenGroup` holds exactly when
`(effectiveOnWhitelist OR isRecording) AND NOT isLowConfidence`, where
`isRecording` means providerType "E" or the isRecording flag and
`isLowConfidence` means `matchConfidence < reviewConfidenceFloor`; the
aggregate test computes `leBase`/`cdTotal` as the rounded sums of borrower
amounts over exactly the in-group rows, `allowedMax = round2(leBase * 1.1)`,
`overage = max(0, round2(cdTotal - allowedMax))`, and the overall status is
OVER if and only if the overage is positive. -/
theorem claim_C3 (rows : List TenPercentFee) (ov : TenPercentOverrideMap)
    (opts : RuleOptions) :
    (∀ r ∈ (evaluateTenPercent rows ov opts).rows,
      (r.effectiveOnWhitelist =
        (match (List.lookup r.id ov).bind (fun o => o.includeInGroup) with
          | some b => b
          | none => r.onWhitelist)) ∧
      (r.inTenGroup = true ↔
        ((r.effectiveOnWhitelist = true ∨ r.providerType = "E" ∨
            r.isRecording.getD false = true) ∧
          ¬ r.matchConfidence < (resolveOptions opts).reviewConfidenceFloor))) ∧
    (evaluateTenPercent rows ov opts).leBase =
      round2 ((((evaluateTenPercent rows ov opts).rows.filter
        (fun r => r.inTenGroup)).map (fun r => r.le.borrower)).sum) ∧
    (evaluateTenPercent rows ov opts).cdTotal =
      round2 ((((evaluateTenPercent rows ov opts).rows.filter
        (fun r => r.inTenGroup)).map (fun r => r.cd.borrower)).sum) ∧
    (evaluateTenPercent rows ov opts).allowedMax =
      round2 ((evaluateTenPercent rows ov opts).leBase * (11 / 10)) ∧
    (evaluateTenPercent rows ov opts).overage =
      max 0 (round2 ((evaluateTenPercent rows ov opts).cdTotal -
        (evaluateTenPercent rows ov opts).allowedMax)) ∧
    ((evaluateTenPercent rows ov opts).status = TenStatus.OVER ↔
      0 < (evaluateTenPercent rows ov opts).overage) := by
  refine ⟨?_, ?_, ?_, rfl, ?_, ?_⟩
  · intro r hr
    rw [evaluateTenPercent_rows_eq] at hr
    obtain ⟨r0, hr0, hfee, -, -, heff, hgrp, -⟩ := tenCurePass_shape _ _ _ r hr
    obtain ⟨a, -, ha⟩ := List.mem_map.mp hr0
    have hid : r.id = a.id := by
      rw [congrArg TenPercentFee.id hfee, ← ha]
      rfl
    have hwl : r.onWhitelist = a.onWhitelist := by
      rw [congrArg TenPercentFee.onWhitelist hfee, ← ha]
      rfl
    have hpt : r.providerType = a.providerType := by
      rw [congrArg TenPercentFee.providerType hfee, ← ha]
      rfl
    have hrec : r.isRecording = a.isRecording := by
      rw [congrArg TenPercentFee.isRecording hfee, ← ha]
      rfl
    have hmc : r.matchConfidence = a.matchConfidence := by
      rw [congrArg TenPercentFee.matchConfidence hfee, ← ha]
      rfl
    constructor
    · rw [heff, ← ha, hid, hwl]
      try rfl
    · rw [hgrp, ← ha, heff, ← ha, hpt, hrec, hmc]
      show (tenRow ov (resolveOptions opts) a).inTenGroup = true ↔ _
      unfold tenRow
      simp only [Bool.and_eq_true, Bool.or_eq_true, Bool.not_eq_true', decide_eq_false_iff_not,
        beq_iff_eq, Bool.coe_iff_coe]
  · rw [evaluateTenPercent_rows_eq, tenCurePass_filter]
    · rfl
    · intro r
      rfl
  · rw [evaluateTenPercent_rows_eq, tenCurePass_filter]
    · rfl
    · intro r
      rfl
  · have hcd : isCents ((evaluateTenPercent rows ov opts).cdTotal -
        (evaluateTenPercent rows ov opts).allowedMax) :=
      isCents_sub (round2_isCents _) (round2_isCents _)
    have h1 : round2 ((evaluateTenPercent rows ov opts).cdTotal -
        (evaluateTenPercent rows ov opts).allowedMax) =
        (evaluateTenPercent rows ov opts).cdTotal -
          (evaluateTenPercent rows ov opts).allowedMax :=
      round2_eq_self_of_isCents hcd
    have h2 : (evaluateTenPercent rows ov opts).overage =
        round2 (max 0 ((evaluateTenPercent rows ov opts).cdTotal -
          (evaluateTenPercent rows ov opts).allowedMax)) := rfl
    rw [h2, h1, round2_eq_self_of_isCents (isCents_max_zero hcd)]
  · show (if 0 < (evaluateTenPercent rows ov opts).overage then TenStatus.OVER
      else TenStatus.PASS) = TenStatus.OVER ↔ _
    split
    · rename_i h
      simp [h]
    · rename_i h
      simp [h]

/-- C3 witness: group membership instantiated on a concrete whitelisted
confident row with no overrides. -/
theorem claim_C3_witness :
    ((tenRow [] (resolveOptions noOptions) tfee1).effectiveOnWhitelist =
      (match (List.lookup (tenRow [] (resolveOptions noOptions) tfee1).id
          ([] : TenPercentOverrideMap)).bind (fun o => o.includeInGroup) with
        | some b => b
        | none => (tenRow [] (resolveOptions noOptions) tfee1).onWhitelist)) ∧
    ((tenRow [] (resolveOptions noOptions) tfee1).inTenGroup = true ↔
      (((tenRow [] (resolveOptions noOptions) tfee1).effectiveOnWhitelist = true ∨
        (tenRow [] (resolveOptions noOptions) tfee1).providerType = "E" ∨
        (tenRow [] (resolveOptions noOptions) tfee1).isRecording.getD false = true) ∧
       ¬ (tenRow [] (resolveOptions noOptions) tfee1).matchConfidence <
         (resolveOptions noOptions).reviewConfidenceFloor)) :=
  (claim_C3 [tfee1] [] noOptions).1 _
    (ten_mem_rows [tfee1] [] noOptions tfee1 (by simp)
      (Or.inr (Or.inr (by simp [resolveOptions, noOptions, DEFAULTS]))))

/-! ## C5 helper lemmas -/

theorem zeroCurePass_map_field {β : Type} (c t : ℚ) (l : List ZeroToleranceDisplayRow)
    (f : ZeroToleranceDisplayRow → β)
    (hf : ∀ r : ZeroToleranceDisplayRow,
      f { r with flags := r.flags ++ [curedZeroFlag c] } = f r) :
    (zeroCurePass c t l).map f = l.map f := by
  unfold zeroCurePass
  split
  · rw [List.map_map]
    apply List.map_congr_left
    intro a ha
    simp only [Function.comp_apply]
    split
    · exact hf a
    · rfl
  · rfl

theorem zeroCurePass_countP (c t : ℚ) (l : List ZeroToleranceDisplayRow)
    (p : ZeroToleranceDisplayRow → Bool)
    (hp : ∀ r : ZeroToleranceDisplayRow,
      p { r with flags := r.flags ++ [curedZeroFlag c] } = p r) :
    (zeroCurePass c t l).countP p = l.countP p := by
  unfold zeroCurePass
  split
  · rw [List.countP_map]
    apply List.countP_congr
    intro a ha
    simp only [Function.comp_apply]
    suffices hgp : p (if (decide (0 < a.cureAmount) && decide (t ≤ c)) = true then
        { a with flags := a.flags ++ [curedZeroFlag c] } else a) = p a by
      rw [hgp]
    split
    · exact hp a
    · rfl
  · rfl

theorem zeroRow_cure_nonneg (bucket : ZBucket) (cfg : ResolvedRuleOptions)
    (row : ZeroToleranceFee) : 0 ≤ (zeroRow bucket cfg row).cureAmount := by
  by_cases hf : (zeroRow bucket cfg row).status = RowStatus.FAIL
  · obtain ⟨-, hcure⟩ := zeroRow_fail_data bucket cfg row hf
    rw [hcure]
    apply round2_nonneg
    have := (zeroRow_status_fail_iff bucket cfg row).mp hf
    linarith
  · rw [zeroRow_nonfail_cure bucket cfg row hf]

theorem zeroRow_cure_isCents (bucket : ZBucket) (cfg : ResolvedRuleOptions)
    (row : ZeroToleranceFee) : isCents (zeroRow bucket cfg row).cureAmount := by
  by_cases hf : (zeroRow bucket cfg row).status = RowStatus.FAIL
  · obtain ⟨-, hcure⟩ := zeroRow_fail_data bucket cfg row hf
    rw [hcure]
    exact round2_isCents _
  · rw [zeroRow_nonfail_cure bucket cfg row hf]
    exact isCents_zero

theorem tenCurePass_map_field {β : Type} (c o : ℚ) (l : List TenPercentDisplayRow)
    (f : TenPercentDisplayRow → β)
    (hf : ∀ r : TenPercentDisplayRow,
      f { r with flags := r.flags ++ [curedTenFlag c] } = f r) :
    (tenCurePass c o l).map f = l.map f := by
  unfold tenCurePass
  split
  · rw [List.map_map]
    apply List.map_congr_left
    intro a ha
    simp only [Function.comp_apply]
    split
    · exact hf a
    · rfl
  · rfl

theorem evaluateZeroTolerance_subtotalLE (zrows : List ZeroToleranceFee) (bucket : ZBucket)
    (opts : RuleOptions) :
    (evaluateZeroTolerance zrows bucket opts).subtotalLE =
      currency (((zrows.map (zeroRow bucket (resolveOptions opts))).map
        (fun r => r.le.borrower)).sum) := by
  show currency (((zeroCurePass _ _ _).map _).sum) = _
  rw [zeroCurePass_map_field]
  intro r
  rfl

theorem evaluateZeroTolerance_subtotalCD (zrows : List ZeroToleranceFee) (bucket : ZBucket)
    (opts : RuleOptions) :
    (evaluateZeroTolerance zrows bucket opts).subtotalCD =
      currency (((zrows.map (zeroRow bucket (resolveOptions opts))).map
        (fun r => r.cd.borrower)).sum) := by
  show currency (((zeroCurePass _ _ _).map _).sum) = _
  rw [zeroCurePass_map_field]
  intro r
  rfl

theorem evaluateZeroTolerance_cureAmount (zrows : List ZeroToleranceFee) (bucket : ZBucket)
    (opts : RuleOptions) :
    (evaluateZeroTolerance zrows bucket opts).cureAmount =
      currency (((zrows.map (zeroRow bucket (resolveOptions opts))).map
        (fun r => r.cureAmount)).sum) := by
  show currency (((zeroCurePass _ _ _).map _).sum) = _
  rw [zeroCurePass_map_field]
  intro r
  rfl

theorem evaluateZeroTolerance_countP (zrows : List ZeroToleranceFee) (bucket : ZBucket)
    (opts : RuleOptions) (s : RowStatus) :
    ((evaluateZeroTolerance zrows bucket opts).rows).countP (fun r => r.status == s) =
      (zrows.map (zeroRow bucket (resolveOptions opts))).countP (fun r => r.status == s) := by
  rw [evaluateZeroTolerance_rows_eq]
  rw [zeroCurePass_countP]
  intro r
  rfl

/-- C5: lender-credit curing is advisory annotation only.  When the credit
is positive and fully covers the zero-tolerance cure need, the evaluation
equals the credit-free evaluation except that every row with a positive
`cureAmount` gains one trailing `CURED_BY_LENDER` warning flag; statuses,
deltas, cure amounts, subtotals and counts are unchanged.  Likewise, when
the ten-percent overage is positive and fully covered, every in-group row
with positive delta gains the flag and every aggregate figure, including
the OVER status, is unchanged. -/
theorem claim_C5 (opts : RuleOptions) (zrows : List ZeroToleranceFee) (bucket : ZBucket)
    (trows : List TenPercentFee) (ov : TenPercentOverrideMap) :
    (0 < (resolveOptions opts).lenderCredits →
     (evaluateZeroTolerance zrows bucket opts).cureAmount ≤ (resolveOptions opts).lenderCredits →
      (evaluateZeroTolerance zrows bucket opts).rows =
        (evaluateZeroTolerance zrows bucket {opts with lenderCredits := some 0}).rows.map
          (fun r => if 0 < r.cureAmount then
            { r with flags := r.flags ++ [curedZeroFlag (resolveOptions opts).lenderCredits] }
          else r) ∧
      (evaluateZeroTolerance zrows bucket opts).subtotalLE =
        (evaluateZeroTolerance zrows bucket {opts with lenderCredits := some 0}).subtotalLE ∧
      (evaluateZeroTolerance zrows bucket opts).subtotalCD =
        (evaluateZeroTolerance zrows bucket {opts with lenderCredits := some 0}).subtotalCD ∧
      (evaluateZeroTolerance zrows bucket opts).passCount =
        (evaluateZeroTolerance zrows bucket {opts with lenderCredits := some 0}).passCount ∧
      (evaluateZeroTolerance zrows bucket opts).failCount =
        (evaluateZeroTolerance zrows bucket {opts with lenderCredits := some 0}).failCount ∧
      (evaluateZeroTolerance zrows bucket opts).reviewCount =
        (evaluateZeroTolerance zrows bucket {opts with lenderCredits := some 0}).reviewCount ∧
      (evaluateZeroTolerance zrows bucket opts).cureAmount =
        (evaluateZeroTolerance zrows bucket {opts with lenderCredits := some 0}).cureAmount) ∧
    (0 < (evaluateTenPercent trows ov opts).overage →
     (evaluateTenPercent trows ov opts).overage ≤ (resolveOptions opts).lenderCredits →
      (evaluateTenPercent trows ov opts).rows =
        (evaluateTenPercent trows ov {opts with lenderCredits := some 0}).rows.map
          (fun r => if r.inTenGroup = true ∧ 0 < r.delta then
            { r with flags := r.flags ++ [curedTenFlag (resolveOptions opts).lenderCredits] }
          else r) ∧
      (evaluateTenPercent trows ov opts).leBase =
        (evaluateTenPercent trows ov {opts with lenderCredits := some 0}).leBase ∧
      (evaluateTenPercent trows ov opts).cdTotal =
        (evaluateTenPercent trows ov {opts with lenderCredits := some 0}).cdTotal ∧
      (evaluateTenPercent trows ov opts).allowedMax =
        (evaluateTenPercent trows ov {opts with lenderCredits := some 0}).allowedMax ∧
      (evaluateTenPercent trows ov opts).overage =
        (evaluateTenPercent trows ov {opts with lenderCredits := some 0}).overage ∧
      (evaluateTenPercent trows ov opts).status =
        (evaluateTenPercent trows ov {opts with lenderCredits := some 0}).status ∧
      (evaluateTenPercent trows ov opts).status = TenStatus.OVER) := by
  constructor
  · intro hc hcov
    have hcents_sum : isCents (((zrows.map (zeroRow bucket (resolveOptions opts))).map
        (fun r => r.cureAmount)).sum) := by
      apply isCents_sum
      intro x hx
      obtain ⟨r, hr, hrx⟩ := List.mem_map.mp hx
      obtain ⟨a, ha, har⟩ := List.mem_map.mp hr
      rw [← hrx, ← har]
      exact zeroRow_cure_isCents bucket _ a
    have hnn : ∀ x ∈ ((zrows.map (zeroRow bucket (resolveOptions opts))).map
        (fun r => r.cureAmount)), 0 ≤ x := by
      intro x hx
      obtain ⟨r, hr, hrx⟩ := List.mem_map.mp hx
      obtain ⟨a, ha, har⟩ := List.mem_map.mp hr
      rw [← hrx, ← har]
      exact zeroRow_cure_nonneg bucket _ a
    have htcn_eq : currency (((zrows.map (zeroRow bucket (resolveOptions opts))).map
        (fun r => r.cureAmount)).sum) =
        ((zrows.map (zeroRow bucket (resolveOptions opts))).map (fun r => r.cureAmount)).sum :=
      round2_eq_self_of_isCents hcents_sum
    have hcov2 : currency (((zrows.map (zeroRow bucket (resolveOptions opts))).map
        (fun r => r.cureAmount)).sum) ≤ (resolveOptions opts).lenderCredits := by
      rw [← evaluateZeroTolerance_cureAmount]
      exact hcov
    have hbase_rows : (evaluateZeroTolerance zrows bucket
        {opts with lenderCredits := some 0}).rows =
        zrows.map (zeroRow bucket (resolveOptions opts)) := by
      rw [evaluateZeroTolerance_rows_eq]
      unfold zeroCurePass
      rw [if_neg]
      · rfl
      · simp only [Bool.and_eq_true, decide_eq_true_eq, resolveOptions, Option.getD_some]
        rintro ⟨h0, -⟩
        exact absurd h0 (lt_irrefl 0)
    refine ⟨?_, ?_, ?_, ?_, ?_, ?_, ?_⟩
    · rw [hbase_rows, evaluateZeroTolerance_rows_eq]
      unfold zeroCurePass
      rcases lt_or_le 0 (((zrows.map (zeroRow bucket (resolveOptions opts))).map
          (fun r => r.cureAmount)).sum) with hpos | hle0
      · rw [if_pos]
        · apply List.map_congr_left
          intro a ha
          by_cases hca : 0 < a.cureAmount
          · rw [if_pos, if_pos hca]
            simp only [Bool.and_eq_true, decide_eq_true_eq]
            exact ⟨hca, hcov2⟩
          · rw [if_neg, if_neg hca]
            simp only [Bool.and_eq_true, decide_eq_true_eq]
            rintro ⟨h, -⟩
            exact hca h
        · simp only [Bool.and_eq_true, decide_eq_true_eq]
          refine ⟨hc, ?_⟩
          rw [htcn_eq]
          exact hpos
      · have hzero : (((zrows.map (zeroRow bucket (resolveOptions opts))).map
            (fun r => r.cureAmount)).sum) = 0 :=
          le_antisymm hle0 (List.sum_nonneg hnn)
        rw [if_neg]
        · symm
          calc (zrows.map (zeroRow bucket (resolveOptions opts))).map
                (fun r => if 0 < r.cureAmount then
                  { r with flags := r.flags ++
                    [curedZeroFlag (resolveOptions opts).lenderCredits] } else r) =
              (zrows.map (zeroRow bucket (resolveOptions opts))).map id := by
                apply List.map_congr_left
                intro a ha
                rw [if_neg]
                · rfl
                · intro hca
                  have hbound : a.cureAmount ≤ (((zrows.map
                      (zeroRow bucket (resolveOptions opts))).map
                      (fun r => r.cureAmount)).sum) :=
                    List.single_le_sum hnn _ (List.mem_map.mpr ⟨a, ha, rfl⟩)
                  rw [hzero] at hbound
                  exact absurd (lt_of_lt_of_le hca hbound) (lt_irrefl 0)
            _ = zrows.map (zeroRow bucket (resolveOptions opts)) := List.map_id _
        · simp only [Bool.and_eq_true, decide_eq_true_eq]
          rintro ⟨-, hpos⟩
          rw [htcn_eq, hzero] at hpos
          exact absurd hpos (lt_irrefl 0)
    · rw [evaluateZeroTolerance_subtotalLE, evaluateZeroTolerance_subtotalLE]
      rfl
    · rw [evaluateZeroTolerance_subtotalCD, evaluateZeroTolerance_subtotalCD]
      rfl
    · show ((evaluateZeroTolerance zrows bucket opts).rows).countP
        (fun r => r.status == RowStatus.PASS) = _
      rw [evaluateZeroTolerance_countP]
      rfl
    · show ((evaluateZeroTolerance zrows bucket opts).rows).countP
        (fun r => r.status == RowStatus.FAIL) = _
      rw [evaluateZeroTolerance_countP]
      rfl
    · show ((evaluateZeroTolerance zrows bucket opts).rows).countP
        (fun r => r.status == RowStatus.REVIEW) = _
      rw [evaluateZeroTolerance_countP]
      rfl
    · rw [evaluateZeroTolerance_cureAmount, evaluateZeroTolerance_cureAmount]
      rfl
  · intro ho hcov
    have hbase_rows : (evaluateTenPercent trows ov {opts with lenderCredits := some 0}).rows =
        trows.map (tenRow ov (resolveOptions opts)) := by
      rw [evaluateTenPercent_rows_eq]
      unfold tenCurePass
      rw [if_neg]
      · rfl
      · simp only [Bool.and_eq_true, decide_eq_true_eq, resolveOptions, Option.getD_some]
        rintro ⟨hpos, hle⟩
        exact absurd (lt_of_lt_of_le hpos hle) (lt_irrefl 0)
    refine ⟨?_, rfl, rfl, rfl, rfl, ?_, ?_⟩
    · rw [hbase_rows, evaluateTenPercent_rows_eq]
      unfold tenCurePass
      rw [if_pos]
      · apply List.map_congr_left
        intro a ha
        by_cases hca : (a.inTenGroup = true ∧ 0 < a.delta)
        · rw [if_pos, if_pos hca]
          simp only [Bool.and_eq_true, decide_eq_true_eq]
          exact hca
        · rw [if_neg, if_neg hca]
          simp only [Bool.and_eq_true, decide_eq_true_eq]
          exact hca
      · simp only [Bool.and_eq_true, decide_eq_true_eq]
        exact ⟨ho, hcov⟩
    · rfl
    · show (if 0 < (evaluateTenPercent trows ov opts).overage then TenStatus.OVER
        else TenStatus.PASS) = TenStatus.OVER
      rw [if_pos ho]

/-- C5 witness: the frame property fired on a concrete covered zero
violation and a concrete covered ten-percent overage. -/
theorem claim_C5_witness :
    ((evaluateZeroTolerance [zfee2] ZBucket.A optsCred1).rows =
      (evaluateZeroTolerance [zfee2] ZBucket.A
          {optsCred1 with lenderCredits := some 0}).rows.map
        (fun r => if 0 < r.cureAmount then
          { r with flags := r.flags ++ [curedZeroFlag (resolveOptions optsCred1).lenderCredits] }
        else r)) ∧
    (evaluateZeroTolerance [zfee2] ZBucket.A optsCred1).failCount =
      (evaluateZeroTolerance [zfee2] ZBucket.A
        {optsCred1 with lenderCredits := some 0}).failCount ∧
    ((evaluateTenPercent [tfee1] [] optsCred50).rows =
      (evaluateTenPercent [tfee1] [] {optsCred50 with lenderCredits := some 0}).rows.map
        (fun r => if r.inTenGroup = true ∧ 0 < r.delta then
          { r with flags := r.flags ++ [curedTenFlag (resolveOptions optsCred50).lenderCredits] }
        else r)) ∧
    (evaluateTenPercent [tfee1] [] optsCred50).status = TenStatus.OVER := by
  have hdelta2 : borrowerDelta zfee2.le zfee2.cd = 2 := by
    show round2 ((1002 : ℚ) - 1000) = 2
    rw [show ((1002 : ℚ) - 1000) = 2 from by norm_num]
    exact round2_eq_self_of_isCents ⟨200, by norm_num⟩
  have hfail2 : (zeroRow ZBucket.A (resolveOptions optsCred1) zfee2).status = RowStatus.FAIL := by
    rw [zeroRow_status_fail_iff, hdelta2]
    show (1 : ℚ) < 2
    norm_num
  have hcure2 : (zeroRow ZBucket.A (resolveOptions optsCred1) zfee2).cureAmount = 1 := by
    obtain ⟨-, hceq⟩ := zeroRow_fail_data ZBucket.A (resolveOptions optsCred1) zfee2 hfail2
    rw [hceq, hdelta2]
    rw [show ((2 : ℚ) - (resolveOptions optsCred1).zeroThreshold) = 1 from by
      show ((2 : ℚ) - 1) = 1
      norm_num]
    exact round2_eq_self_of_isCents ⟨100, by norm_num⟩
  have hcA : (evaluateZeroTolerance [zfee2] ZBucket.A optsCred1).cureAmount = 1 := by
    rw [evaluateZeroTolerance_cureAmount]
    show currency ((zeroRow ZBucket.A (resolveOptions optsCred1) zfee2).cureAmount + 0) = 1
    rw [hcure2, add_zero]
    exact round2_eq_self_of_isCents ⟨100, by norm_num⟩
  have hzc : 0 < (resolveOptions optsCred1).lenderCredits := by
    show (0 : ℚ) < 1
    norm_num
  have hzcov : (evaluateZeroTolerance [zfee2] ZBucket.A optsCred1).cureAmount ≤
      (resolveOptions optsCred1).lenderCredits := by
    rw [hcA]
    show (1 : ℚ) ≤ 1
    norm_num
  have hzero := (claim_C5 optsCred1 [zfee2] ZBucket.A [] []).1 hzc hzcov
  have hgrp : (tenRow [] (resolveOptions optsCred50) tfee1).inTenGroup = true := by
    show ((true || ("C" == "E" || (none : Option Bool).getD false)) &&
      !decide ((19 / 20 : ℚ) < (resolveOptions optsCred50).reviewConfidenceFloor)) = true
    rw [show decide ((19 / 20 : ℚ) < (resolveOptions optsCred50).reviewConfidenceFloor) = false from
      decide_eq_false (by
        show ¬ ((19 / 20 : ℚ) < 4 / 5)
        norm_num)]
    rfl
  have hfilter : ([tenRow [] (resolveOptions optsCred50) tfee1].filter
      (fun r => r.inTenGroup)) = [tenRow [] (resolveOptions optsCred50) tfee1] := by
    simp [List.filter, hgrp]
  have hlB : (evaluateTenPercent [tfee1] [] optsCred50).leBase = 400 := by
    show currency ((((List.map (tenRow [] (resolveOptions optsCred50)) [tfee1]).filter
      (fun r => r.inTenGroup)).map (fun r => r.le.borrower)).sum) = 400
    rw [show List.map (tenRow [] (resolveOptions optsCred50)) [tfee1] =
      [tenRow [] (resolveOptions optsCred50) tfee1] from rfl, hfilter]
    show currency ((400 : ℚ) + 0) = 400
    rw [add_zero]
    exact round2_eq_self_of_isCents ⟨40000, by norm_num⟩
  have hcdT : (evaluateTenPercent [tfee1] [] optsCred50).cdTotal = 450 := by
    show currency ((((List.map (tenRow [] (resolveOptions optsCred50)) [tfee1]).filter
      (fun r => r.inTenGroup)).map (fun r => r.cd.borrower)).sum) = 450
    rw [show List.map (tenRow [] (resolveOptions optsCred50)) [tfee1] =
      [tenRow [] (resolveOptions optsCred50) tfee1] from rfl, hfilter]
    show currency ((450 : ℚ) + 0) = 450
    rw [add_zero]
    exact round2_eq_self_of_isCents ⟨45000, by norm_num⟩
  have hmaxA : (evaluateTenPercent [tfee1] [] optsCred50).allowedMax = 440 := by
    show currency ((evaluateTenPercent [tfee1] [] optsCred50).leBase * (11 / 10)) = 440
    rw [hlB, show ((400 : ℚ) * (11 / 10)) = 440 from by norm_num]
    exact round2_eq_self_of_isCents ⟨44000, by norm_num⟩
  have hover : (evaluateTenPercent [tfee1] [] optsCred50).overage = 10 := by
    show currency (max 0 ((evaluateTenPercent [tfee1] [] optsCred50).cdTotal -
      (evaluateTenPercent [tfee1] [] optsCred50).allowedMax)) = 10
    rw [hcdT, hmaxA, show (max (0 : ℚ) (450 - 440)) = 10 from by norm_num]
    exact round2_eq_self_of_isCents ⟨1000, by norm_num⟩
  have hto : 0 < (evaluateTenPercent [tfee1] [] optsCred50).overage := by
    rw [hover]
    norm_num
  have htcov : (evaluateTenPercent [tfee1] [] optsCred50).overage ≤
      (resolveOptions optsCred50).lenderCredits := by
    rw [hover]
    show (10 : ℚ) ≤ 50
    norm_num
  have hten := (claim_C5 optsCred50 [] ZBucket.A [tfee1] []).2 hto htcov
  exact ⟨hzero.1, hzero.2.2.2.2.1, hten.1, hten.2.2.2.2.2.2⟩

/-! ## C8 -/

/-- C8 counterexample: the claim keys the per-diem sanity check on the three
context fields being PRESENT, but the code requires them to be truthy
(present and nonzero).  On a bucket-F fee with `perDiemDays = some 0`,
`loanAmount` and `interestRate` present and `cd.borrower = 100 > 0`, the
claimed rule computes `expected = 0` and an infinite relative deviation and
so demands the flag, yet the evaluator raises no
`PER_DIEM_INTEREST_DEVIATION` flag at all. -/
theorem claim_C8_counterexample :
    ¬ (∀ (rows : List UnlimitedFee), ∀ r ∈ evaluateUnlimited rows,
        r.bucket = "F" → r.perDiemDays.isSome → r.loanAmount.isSome →
        r.interestRate.isSome → 0 < r.cd.borrower →
        (ToleranceFlag.PER_DIEM_INTEREST_DEVIATION ∈ flagCodes r.flags ↔
          ((round2 (r.loanAmount.getD 0 * r.interestRate.getD 0 / 100 / 365 *
              r.perDiemDays.getD 0) = 0 ∧
            0 < |r.cd.borrower - round2 (r.loanAmount.getD 0 * r.interestRate.getD 0 /
              100 / 365 * r.perDiemDays.getD 0)|) ∨
           (round2 (r.loanAmount.getD 0 * r.interestRate.getD 0 / 100 / 365 *
              r.perDiemDays.getD 0) ≠ 0 ∧
            10 < |r.cd.borrower - round2 (r.loanAmount.getD 0 * r.interestRate.getD 0 /
              100 / 365 * r.perDiemDays.getD 0)| /
              round2 (r.loanAmount.getD 0 * r.interestRate.getD 0 / 100 / 365 *
                r.perDiemDays.getD 0) * 100)))) := by
  intro h
  have hr := h [ufeeZeroDays] (unlimitedRow ufeeZeroDays)
    (List.mem_map.mpr ⟨ufeeZeroDays, by simp, rfl⟩) rfl rfl rfl rfl
    (by show (0 : ℚ) < 100; norm_num)
  have hexp : round2 ((unlimitedRow ufeeZeroDays).loanAmount.getD 0 *
      (unlimitedRow ufeeZeroDays).interestRate.getD 0 / 100 / 365 *
      (unlimitedRow ufeeZeroDays).perDiemDays.getD 0) = 0 := by
    show round2 ((300000 : ℚ) * (13 / 2) / 100 / 365 * 0) = 0
    rw [show ((300000 : ℚ) * (13 / 2) / 100 / 365 * 0) = 0 from by ring]
    exact round2_eq_self_of_isCents isCents_zero
  have hdev : (0 : ℚ) < |(unlimitedRow ufeeZeroDays).cd.borrower -
      round2 ((unlimitedRow ufeeZeroDays).loanAmount.getD 0 *
        (unlimitedRow ufeeZeroDays).interestRate.getD 0 / 100 / 365 *
        (unlimitedRow ufeeZeroDays).perDiemDays.getD 0)| := by
    rw [hexp]
    show (0 : ℚ) < |(100 : ℚ) - 0|
    rw [show |(100 : ℚ) - 0| = 100 from by norm_num]
    norm_num
  have hflag := hr.mpr (Or.inl ⟨hexp, hdev⟩)
  have hempty : (unlimitedRow ufeeZeroDays).flags = [] := by
    simp [unlimitedRow, ufeeZeroDays, optTruthy]
  rw [hempty] at hflag
  simp [flagCodes] at hflag

theorem perDiem_core (flags1 : List FlagDetail)
    (h1 : ∀ f ∈ flags1, f.code ≠ ToleranceFlag.PER_DIEM_INTEREST_DEVIATION)
    (e c : ℚ) :
    (ToleranceFlag.PER_DIEM_INTEREST_DEVIATION ∈ List.map (fun f => f.code)
        (flags1 ++ (if (if e = 0 then decide (0 < |c - e|)
            else decide (10 < |c - e| / e * 100)) = true
          then [perDiemDeviationFlag e c] else [])) ↔
      (e = 0 ∧ 0 < |c - e| ∨ e ≠ 0 ∧ 10 < |c - e| / e * 100)) ∧
    (ToleranceFlag.PER_DIEM_INTEREST_DEVIATION ∈ List.map (fun f => f.code)
        (flags1 ++ (if (if e = 0 then decide (0 < |c - e|)
            else decide (10 < |c - e| / e * 100)) = true
          then [perDiemDeviationFlag e c] else [])) →
      perDiemDeviationFlag e c ∈ flags1 ++ (if (if e = 0 then decide (0 < |c - e|)
            else decide (10 < |c - e| / e * 100)) = true
          then [perDiemDeviationFlag e c] else [])) := by
  by_cases he : e = 0
  · rw [if_pos he]
    by_cases hd : 0 < |c - e|
    · rw [if_pos (decide_eq_true hd)]
      constructor
      · apply iff_of_true
        · simp [perDiemDeviationFlag, buildFlag]
        · exact Or.inl ⟨he, hd⟩
      · intro hm
        simp
    · rw [if_neg (by simpa using hd)]
      have hnot : ToleranceFlag.PER_DIEM_INTEREST_DEVIATION ∉ List.map (fun f => f.code)
          (flags1 ++ ([] : List FlagDetail)) := by
        simp only [List.append_nil]
        intro hmem
        obtain ⟨f, hf, hfc⟩ := List.mem_map.mp hmem
        exact h1 f hf hfc
      constructor
      · apply iff_of_false hnot
        rintro (⟨-, hp⟩ | ⟨hne, -⟩)
        · exact hd hp
        · exact hne he
      · intro hm
        exact absurd hm hnot
  · rw [if_neg he]
    by_cases hd : 10 < |c - e| / e * 100
    · rw [if_pos (decide_eq_true hd)]
      constructor
      · apply iff_of_true
        · simp [perDiemDeviationFlag, buildFlag]
        · exact Or.inr ⟨he, hd⟩
      · intro hm
        simp
    · rw [if_neg (by simpa using hd)]
      have hnot : ToleranceFlag.PER_DIEM_INTEREST_DEVIATION ∉ List.map (fun f => f.code)
          (flags1 ++ ([] : List FlagDetail)) := by
        simp only [List.append_nil]
        intro hmem
        obtain ⟨f, hf, hfc⟩ := List.mem_map.mp hmem
        exact h1 f hf hfc
      constructor
      · apply iff_of_false hnot
        rintro (⟨hz, -⟩ | ⟨-, hgt⟩)
        · exact he hz
        · exact hd hgt
      · intro hm
        exact absurd hm hnot

theorem unlimitedRow_status (a : UnlimitedFee) :
    (unlimitedRow a).status =
      (if (unlimitedRow a).flags = [] then RowStatus.PASS else RowStatus.REVIEW) := by
  show (if 0 < (unlimitedRow a).flags.length then RowStatus.REVIEW else RowStatus.PASS) = _
  cases hfl : (unlimitedRow a).flags <;> simp

/-- C8 amended: for a bucket-F row whose `perDiemDays`, `loanAmount` and
`interestRate` are present AND nonzero (JavaScript truthiness) and whose
`cd.borrower` is positive, the evaluator computes
`expected = round2(loanAmount * interestRate / 100 / 365 * perDiemDays)` and
raises `PER_DIEM_INTEREST_DEVIATION` exactly when the relative deviation
exceeds 10% — a positive deviation from a zero expected value counting as
infinite (it always exceeds the bound); the raised flag is the one built
from `expected` and `cd.borrower`, carrying both figures in its label; and
the row's status is REVIEW if any flag fired, else PASS. -/
theorem claim_C8 (rows : List UnlimitedFee) :
    ∀ r ∈ evaluateUnlimited rows,
      ∀ d L i : ℚ, r.bucket = "F" → r.perDiemDays = some d → d ≠ 0 →
        r.loanAmount = some L → L ≠ 0 → r.interestRate = some i → i ≠ 0 →
        0 < r.cd.borrower →
        (((ToleranceFlag.PER_DIEM_INTEREST_DEVIATION ∈ flagCodes r.flags ↔
          ((round2 (L * i / 100 / 365 * d) = 0 ∧
            0 < |r.cd.borrower - round2 (L * i / 100 / 365 * d)|) ∨
           (round2 (L * i / 100 / 365 * d) ≠ 0 ∧
            10 < |r.cd.borrower - round2 (L * i / 100 / 365 * d)| /
              round2 (L * i / 100 / 365 * d) * 100))) ∧
         (ToleranceFlag.PER_DIEM_INTEREST_DEVIATION ∈ flagCodes r.flags →
           perDiemDeviationFlag (round2 (L * i / 100 / 365 * d)) r.cd.borrower ∈ r.flags)) ∧
         r.status = (if r.flags = [] then RowStatus.PASS else RowStatus.REVIEW)) := by
  intro r hr d L i hb hd hd0 hL hL0 hi hi0 hcd
  obtain ⟨a, ha, hra⟩ := List.mem_map.mp hr
  subst hra
  have hab : a.bucket = "F" := hb
  have had : a.perDiemDays = some d := hd
  have haL : a.loanAmount = some L := hL
  have hai : a.interestRate = some i := hi
  have hacd : 0 < a.cd.borrower := hcd
  refine ⟨?_, unlimitedRow_status a⟩
  show (_ ∧ _)
  unfold unlimitedRow
  simp only [hab, had, haL, hai, Option.getD_some, flagCodes]
  have htr : ∀ x : ℚ, x ≠ 0 → (x != 0) = true := by
    intro x hx
    exact bne_iff_ne.mpr hx
  simp only [optTruthy, htr d hd0, htr L hL0, htr i hi0, beq_self_eq_true, Bool.true_and,
    Bool.and_true, decide_eq_true_eq]
  rw [show (("F" : String) == "G") = false from by decide,
    show (("F" : String) == "H") = false from by decide]
  simp only [Bool.false_and, Bool.if_false_left, Bool.and_eq_true, if_false, ite_false,
    Bool.false_eq_true, List.append_nil]
  simp only [currency, decide_eq_true_eq, hacd, true_and]
  by_cases h15 : (15 : ℚ) < d
  · rw [if_pos h15]
    refine perDiem_core _ ?_ _ _
    intro f hf
    rw [List.mem_singleton.mp hf]
    show ToleranceFlag.PER_DIEM_OUTLIER ≠ ToleranceFlag.PER_DIEM_INTEREST_DEVIATION
    decide
  · rw [if_neg h15]
    refine perDiem_core _ ?_ _ _
    intro f hf
    simp at hf

/-- C8 witness: the per-diem rule — flag iff, flag contents and the
flag-driven REVIEW/PASS status — instantiated on the concrete bucket-F fee
with 20 per-diem days on a 300000 loan at 6.5%. -/
theorem claim_C8_witness :
    ((ToleranceFlag.PER_DIEM_INTEREST_DEVIATION ∈ flagCodes (unlimitedRow ufeeF).flags ↔
      ((round2 ((300000 : ℚ) * (13 / 2) / 100 / 365 * 20) = 0 ∧
        0 < |(unlimitedRow ufeeF).cd.borrower -
          round2 ((300000 : ℚ) * (13 / 2) / 100 / 365 * 20)|) ∨
       (round2 ((300000 : ℚ) * (13 / 2) / 100 / 365 * 20) ≠ 0 ∧
        10 < |(unlimitedRow ufeeF).cd.borrower -
            round2 ((300000 : ℚ) * (13 / 2) / 100 / 365 * 20)| /
          round2 ((300000 : ℚ) * (13 / 2) / 100 / 365 * 20) * 100))) ∧
    (ToleranceFlag.PER_DIEM_INTEREST_DEVIATION ∈ flagCodes (unlimitedRow ufeeF).flags →
      perDiemDeviationFlag (round2 ((300000 : ℚ) * (13 / 2) / 100 / 365 * 20))
        (unlimitedRow ufeeF).cd.borrower ∈ (unlimitedRow ufeeF).flags)) ∧
    (unlimitedRow ufeeF).status =
      (if (unlimitedRow ufeeF).flags = [] then RowStatus.PASS else RowStatus.REVIEW) :=
  claim_C8 [ufeeF] (unlimitedRow ufeeF) (List.mem_map.mpr ⟨ufeeF, by simp, rfl⟩)
    20 300000 (13 / 2) rfl rfl (by norm_num) rfl (by norm_num) rfl (by norm_num)
    (by show (0 : ℚ) < 5000; norm_num)

/-! ## C6 -/

/-- C6 counterexample: the raw-document transformation path is not a
deterministic function of the documents — with identical inputs, two
different random streams yield different ten-percent rows (the
`onWhitelist` draw `Math.random() > 0.3`). -/
theorem claim_C6_counterexample :
    transformTenPercent (some leDocC6) none randHigh ≠
      transformTenPercent (some leDocC6) none randLow := by
  intro heq
  have h1 : (transformTenPercent (some leDocC6) none randHigh).map (fun f => f.onWhitelist) =
      [decide ((3 / 10 : ℚ) < 1 / 2)] := rfl
  have h2 : (transformTenPercent (some leDocC6) none randLow).map (fun f => f.onWhitelist) =
      [decide ((3 / 10 : ℚ) < 0)] := rfl
  rw [decide_eq_true (by norm_num : (3 / 10 : ℚ) < 1 / 2)] at h1
  rw [decide_eq_false (by norm_num : ¬ (3 / 10 : ℚ) < 0)] at h2
  rw [heq, h2] at h1
  simp at h1

theorem tenRowsFromMap_mask (entries : List (String × TenEntry)) :
    ∀ (i d1 d2 : ℕ) (r1 r2 : ℕ → ℚ),
      (tenRowsFromMap r1 i d1 entries).map (fun f => { f with onWhitelist := false }) =
      (tenRowsFromMap r2 i d2 entries).map (fun f => { f with onWhitelist := false }) := by
  induction entries with
  | nil =>
    intro i d1 d2 r1 r2
    rfl
  | cons e rest ih =>
    intro i d1 d2 r1 r2
    obtain ⟨k, ent⟩ := e
    unfold tenRowsFromMap
    rw [List.map_cons, List.map_cons]
    congr 1
    apply ih

/-- C6 amended: the raw-document path is deterministic in every field
except the randomly drawn `onWhitelist` of ten-percent rows: for any two
random streams, the section A, B and unlimited outputs agree exactly and
the ten-percent outputs agree after masking `onWhitelist`.  (The evaluators
and the AI-matched path take no random input at all, so re-running them is
trivially idempotent.) -/
theorem claim_C6 (le cd : Option LoanEstimateRecord) (r1 r2 : ℕ → ℚ) :
    (transformTridData le cd r1).origination = (transformTridData le cd r2).origination ∧
    (transformTridData le cd r1).cannotShop = (transformTridData le cd r2).cannotShop ∧
    (transformTridData le cd r1).unlimited = (transformTridData le cd r2).unlimited ∧
    (transformTridData le cd r1).tenPercent.map (fun f => { f with onWhitelist := false }) =
      (transformTridData le cd r2).tenPercent.map (fun f => { f with onWhitelist := false }) := by
  refine ⟨rfl, rfl, rfl, ?_⟩
  show (tenRowsFromMap r1 0 0 _).map _ = (tenRowsFromMap r2 0 0 _).map _
  apply tenRowsFromMap_mask

/-! ## C7 -/

/-- C7 counterexample: two differently-labeled LE items whose labels
normalize to the same key do NOT each become a new entry — the second
in-place overwrites the first, leaving a single entry holding only the
second item. -/
theorem claim_C7_counterexample :
    itDup1.label ≠ itDup2.label ∧
    normalizeFee itDup1.label = normalizeFee itDup2.label ∧
    (buildItemMap [itDup1, itDup2] []).length = 1 ∧
    buildItemMap [itDup1, itDup2] [] =
      [(normalizeFee itDup1.label, ⟨some itDup2, none, "2. Appraisal Fee"⟩)] := by
  decide

theorem lookup_append_none {β : Type} (x : String) (l1 l2 : List (String × β))
    (h1 : List.lookup x l1 = none) : List.lookup x (l1 ++ l2) = List.lookup x l2 := by
  induction l1 with
  | nil => rfl
  | cons p t ih =>
    obtain ⟨k, v⟩ := p
    rw [List.cons_append]
    by_cases hx : (x == k) = true
    · exfalso
      rw [show List.lookup x ((k, v) :: t) = some v from by simp [List.lookup, hx]] at h1
      cases h1
    · rw [show List.lookup x ((k, v) :: (t ++ l2)) = List.lookup x (t ++ l2) from by
        simp [List.lookup, hx]]
      apply ih
      rw [show List.lookup x ((k, v) :: t) = List.lookup x t from by simp [List.lookup, hx]] at h1
      exact h1

theorem foldl_insertLE_append (items : List LineItem) :
    ∀ acc : List (String × MergedEntry),
      (∀ it ∈ items, it.label ≠ none ∧ it.label ≠ some "") →
      (∀ it ∈ items, List.lookup (normalizeFee it.label) acc = none) →
      items.Pairwise (fun a b => normalizeFee a.label ≠ normalizeFee b.label) →
      items.foldl insertLE acc = acc ++ items.map (fun it =>
        (normalizeFee it.label, ⟨some it, none, it.label.getD ""⟩)) := by
  induction items with
  | nil =>
    intro acc _ _ _
    simp
  | cons it rest ih =>
    intro acc hlab hnotin hpw
    rw [List.foldl_cons]
    obtain ⟨hn, hne⟩ := hlab it (by simp)
    obtain ⟨l, hl⟩ := Option.ne_none_iff_exists'.mp hn
    have hl0 : ¬ (l == "") = true := by
      simp only [beq_iff_eq]
      intro h
      exact hne (by rw [hl, h])
    have hkey : normalizeFee (some l) = normalizeFee it.label := by rw [hl]
    have hins : insertLE acc it =
        acc ++ [(normalizeFee it.label, ⟨some it, none, it.label.getD ""⟩)] := by
      simp only [insertLE, hl]
      rw [if_neg hl0]
      unfold mapSet
      rw [hkey, hnotin it (by simp)]
      simp [hl]
    rw [hins]
    have hrest := ih (acc ++ [(normalizeFee it.label, ⟨some it, none, it.label.getD ""⟩)])
      (fun x hx => hlab x (by simp [hx]))
      (fun x hx => by
        rw [lookup_append_none _ _ _ (hnotin x (by simp [hx]))]
        have hxne : normalizeFee x.label ≠ normalizeFee it.label :=
          fun h => (List.pairwise_cons.mp hpw).1 x hx h.symm
        have hb : (normalizeFee x.label == normalizeFee it.label) = false := by
          simp [beq_iff_eq, hxne]
        simp [List.lookup, hb])
      (List.pairwise_cons.mp hpw).2
    rw [hrest]
    simp

theorem insertCD_new (m : List (String × MergedEntry)) (item : LineItem)
    (l : String) (hl : item.label = some l) (hne : l ≠ "")
    (hlk : List.lookup (normalizeFee (some l)) m = none) :
    insertCD m item = m ++ [(normalizeFee (some l), ⟨none, some item, l⟩)] := by
  simp [insertCD, mapSet, hl, hlk, hne]

theorem insertCD_found (m : List (String × MergedEntry)) (item : LineItem)
    (l : String) (e : MergedEntry) (hl : item.label = some l) (hne : l ≠ "")
    (hlk : List.lookup (normalizeFee (some l)) m = some e) :
    insertCD m item = m.map (fun p =>
      if p.1 == normalizeFee (some l)
      then (normalizeFee (some l), ⟨e.le, some item, e.displayLabel⟩) else p) := by
  simp [insertCD, mapSet, hl, hlk, hne]

/-- C7 (amended): in the raw-document merge for one tolerance bucket,
(1) a single LE item and a single CD item whose labels normalize to the
same key collapse into exactly one entry with both sides populated;
(2) with different normalized keys they never collapse: the map keeps two
entries, the LE-only one first; (3) LE items are inserted first and — when
their normalized keys are pairwise distinct — each becomes a new entry in
order (a duplicate key would instead overwrite the earlier entry in
place, as `claim_C7_counterexample` shows); (4) a CD item whose key is
absent appends a new CD-only entry; (5) a CD item whose key is present
updates that entry in place, keeping the LE side and the display label. -/
theorem claim_C7 :
    (∀ it1 it2 : LineItem, ∀ l1 l2 : String,
      it1.label = some l1 → l1 ≠ "" → it2.label = some l2 → l2 ≠ "" →
      normalizeFee (some l1) = normalizeFee (some l2) →
      buildItemMap [it1] [it2] =
        [(normalizeFee (some l1), ⟨some it1, some it2, l1⟩)]) ∧
    (∀ it1 it2 : LineItem, ∀ l1 l2 : String,
      it1.label = some l1 → l1 ≠ "" → it2.label = some l2 → l2 ≠ "" →
      normalizeFee (some l1) ≠ normalizeFee (some l2) →
      buildItemMap [it1] [it2] =
        [(normalizeFee (some l1), ⟨some it1, none, l1⟩),
         (normalizeFee (some l2), ⟨none, some it2, l2⟩)]) ∧
    (∀ leItems : List LineItem,
      (∀ it ∈ leItems, it.label ≠ none ∧ it.label ≠ some "") →
      leItems.Pairwise (fun a b => normalizeFee a.label ≠ normalizeFee b.label) →
      ∀ cdItems : List LineItem,
      buildItemMap leItems cdItems = cdItems.foldl insertCD
        (leItems.map (fun it =>
          (normalizeFee it.label, ⟨some it, none, it.label.getD ""⟩)))) ∧
    (∀ (m : List (String × MergedEntry)) (item : LineItem) (l : String),
      item.label = some l → l ≠ "" →
      List.lookup (normalizeFee (some l)) m = none →
      insertCD m item = m ++ [(normalizeFee (some l), ⟨none, some item, l⟩)]) ∧
    (∀ (m : List (String × MergedEntry)) (item : LineItem) (l : String)
      (e : MergedEntry),
      item.label = some l → l ≠ "" →
      List.lookup (normalizeFee (some l)) m = some e →
      insertCD m item = m.map (fun p =>
        if p.1 == normalizeFee (some l)
        then (normalizeFee (some l), ⟨e.le, some item, e.displayLabel⟩) else p)) := by
  have hle1 : ∀ (it1 : LineItem) (l1 : String), it1.label = some l1 → l1 ≠ "" →
      [it1].foldl insertLE [] = [(normalizeFee (some l1), ⟨some it1, none, l1⟩)] := by
    intro it1 l1 h1 h1n
    have h := foldl_insertLE_append [it1] []
      (by intro x hx; simp at hx; subst hx
          exact ⟨by simp [h1], by simp [h1, h1n]⟩)
      (fun x _ => rfl) (by simp)
    simpa [h1] using h
  refine ⟨?aEq, ?bNe, ?cLE, ?dNew, ?eFound⟩
  case dNew =>
    exact insertCD_new
  case eFound =>
    exact insertCD_found
  case cLE =>
    intro leItems hlab hpw cdItems
    simp only [buildItemMap]
    rw [foldl_insertLE_append leItems [] hlab (fun x _ => rfl) hpw]
    simp
  case aEq =>
    intro it1 it2 l1 l2 h1 h1n h2 h2n hk
    show [it2].foldl insertCD ([it1].foldl insertLE []) = _
    rw [hle1 it1 l1 h1 h1n]
    rw [List.foldl_cons, List.foldl_nil]
    rw [insertCD_found _ it2 l2 ⟨some it1, none, l1⟩ h2 h2n
      (by simp [List.lookup, beq_iff_eq, hk.symm])]
    simp [beq_iff_eq, hk]
  case bNe =>
    intro it1 it2 l1 l2 h1 h1n h2 h2n hk
    show [it2].foldl insertCD ([it1].foldl insertLE []) = _
    rw [hle1 it1 l1 h1 h1n]
    rw [List.foldl_cons, List.foldl_nil]
    rw [insertCD_new _ it2 l2 h2 h2n
      (by
        have hb : (normalizeFee (some l2) == normalizeFee (some l1)) = false := by
          simp only [beq_eq_false_iff_ne, ne_eq]
          intro h
          exact hk h.symm
        simp [List.lookup, hb])]
    simp

/-- Witness for C7: concrete runs of all five conjuncts — "Credit Report
Fee" and "Credit Report Fee to Equifax" share the normalized key
"credit report fee" and collapse; "Tax Service Fee" keys differently and
stays separate; the LE pass, the CD append and the CD in-place update are
exercised on the same fixtures. -/
theorem claim_C7_witness :
    buildItemMap [itCR] [itCR2] =
      [(normalizeFee (some "Credit Report Fee"),
        ⟨some itCR, some itCR2, "Credit Report Fee"⟩)] ∧
    buildItemMap [itCR] [itTax] =
      [(normalizeFee (some "Credit Report Fee"),
        ⟨some itCR, none, "Credit Report Fee"⟩),
       (normalizeFee (some "Tax Service Fee"),
        ⟨none, some itTax, "Tax Service Fee"⟩)] ∧
    buildItemMap [itCR, itTax] [] = List.foldl insertCD
      ([itCR, itTax].map (fun it =>
        (normalizeFee it.label, ⟨some it, none, it.label.getD ""⟩))) [] ∧
    insertCD [] itTax =
      [] ++ [(normalizeFee (some "Tax Service Fee"),
        ⟨none, some itTax, "Tax Service Fee"⟩)] ∧
    insertCD [(normalizeFee (some "Credit Report Fee"),
        ⟨some itCR, none, "Credit Report Fee"⟩)] itCR2 =
      [(normalizeFee (some "Credit Report Fee"),
        ⟨some itCR, none, "Credit Report Fee"⟩)].map (fun p =>
        if p.1 == normalizeFee (some "Credit Report Fee to Equifax")
        then (normalizeFee (some "Credit Report Fee to Equifax"),
          ⟨some itCR, some itCR2, "Credit Report Fee"⟩) else p) :=
  ⟨claim_C7.1 itCR itCR2 "Credit Report Fee" "Credit Report Fee to Equifax"
      rfl (by decide) rfl (by decide) (by decide),
   claim_C7.2.1 itCR itTax "Credit Report Fee" "Tax Service Fee"
      rfl (by decide) rfl (by decide) (by decide),
   claim_C7.2.2.1 [itCR, itTax]
      (by intro x hx; fin_cases hx <;> exact ⟨by decide, by decide⟩)
      (by
        refine List.Pairwise.cons ?h (List.pairwise_singleton _ _)
        intro x hx
        simp only [List.mem_singleton] at hx
        subst hx
        decide) [],
   claim_C7.2.2.2.1 [] itTax "Tax Service Fee" rfl (by decide) rfl,
   claim_C7.2.2.2.2 [(normalizeFee (some "Credit Report Fee"),
        ⟨some itCR, none, "Credit Report Fee"⟩)] itCR2
      "Credit Report Fee to Equifax" ⟨some itCR, none, "Credit Report Fee"⟩
      rfl (by decide) (by decide)⟩
